import Mathlib

/-!
Verification of the Thoughbot repository: a shallow embedding in Lean 4 of
the plan model, response validation and repair, the parsing pipeline, the
graph executor (`pocketflow.py`), the retry wrapper, the augmentation cache
(`_perform_searches` / `scrape_multiple_urls`) and the chain-of-thought node
(`nodes.py`), together with theorems about them.

Modelling conventions:
* Python dicts with a fixed key set become structures; a key that may be
  absent becomes an `Option` field (`none` = the key is not in the dict).
  Python `isinstance` type checks become static types: a field that is
  present but of the wrong runtime type is modelled as absent, since every
  code path under verification treats the two identically (both raise).
* External collaborators (the LLM completion transport, the Qwant search
  client, the HTTP scraper) are out of scope per the spec and enter as
  function parameters; an exception they may raise is an `Except.error`.
* In-place dict mutation becomes functional record update; `asyncio`
  concurrency is sequentialized (the code joins on all tasks and the spec
  promises input-order results, so the sequential semantics is the
  observable one).
* Unbounded recursion (`Flow.run`, sub-agent loops) is given a fuel
  parameter; termination for a given input is existential over fuel.
-/

/-! ## Plan model (`nodes.py` plan dictionaries)

A plan is an ordered list of steps; a step is a dict with optional keys
`description`, `status`, `result`, `query`, `mark` and `sub_steps` (itself
a plan). `Plan` inlines each step's fields into its `cons` cell: an
`Option` field is `none` when the key is absent, and the `sub_steps` key
is a presence flag plus a sub-plan (when `has_sub_steps` is false the
`sub_steps` component models the key being absent, and every function here
ignores it). The fields are inlined because a list-of-records
representation needs a nested or mutual inductive, whose recursion
Lean 4.14 does not compile in a kernel-reducible way. -/

inductive Plan where
  | nil : Plan
  | cons : (description : Option String) → (status : Option String) →
      (result : Option String) → (query : Option String) → (mark : Option String) →
      (has_sub_steps : Bool) → (sub_steps : Plan) → (tail : Plan) → Plan
deriving Repr, DecidableEq

/-- One step, viewed as a record: the head data of a `Plan.cons` cell. -/
structure Step where
  description : Option String
  status : Option String
  result : Option String
  query : Option String
  mark : Option String
  has_sub_steps : Bool
  sub_steps : Plan
deriving Repr, DecidableEq

/-- Rebuild a `cons` cell from a step record and a tail. -/
def Plan.cons_step (s : Step) (rest : Plan) : Plan :=
  .cons s.description s.status s.result s.query s.mark s.has_sub_steps s.sub_steps rest

/-- The sub-plan a step's traversals recurse into: the `sub_steps` value
when the key is present, the empty plan otherwise. -/
def Step.sub_plan (s : Step) : Plan :=
  if s.has_sub_steps then s.sub_steps else .nil

def Plan.length : Plan → Nat
  | .nil => 0
  | .cons _ _ _ _ _ _ _ rest => rest.length + 1

def Plan.get : Plan → Nat → Option Step
  | .nil, _ => none
  | .cons d st r q m hs subs _, 0 => some ⟨d, st, r, q, m, hs, subs⟩
  | .cons _ _ _ _ _ _ _ rest, n + 1 => rest.get n

def Plan.modify : Plan → Nat → (Step → Step) → Plan
  | .nil, _, _ => .nil
  | .cons d st r q m hs subs rest, 0, f => Plan.cons_step (f ⟨d, st, r, q, m, hs, subs⟩) rest
  | .cons d st r q m hs subs rest, n + 1, f => .cons d st r q m hs subs (rest.modify n f)

/-- Python truthiness of an optional string value: the key is present and the
string is non-empty. -/
def option_truthy : Option String → Bool
  | some s => !(s == "")
  | none => false

/-- Python truthiness of the `sub_steps` value: the key is present and the
list is non-empty. -/
def Step.subs_truthy (s : Step) : Bool := s.has_sub_steps && !(s.sub_steps == .nil)

/-- The `valid_statuses` list of `ChainOfThoughtNode._validate_plan_step`. -/
def valid_statuses : List String :=
  ["Pending", "Done", "Verification Needed", "Search Needed"]

/-- The error taxonomy of `_validate_response` / `_validate_plan_step`
(`nodes.py`): each constructor stands for one of the `ValueError` raises,
identified by its raise site rather than its message text. -/
inductive ValErr where
  | missingField : String → ValErr
  | missingFinalAnswer : ValErr
  | missingDescription : ValErr
  | missingStatus : ValErr
  | invalidStatus : String → ValErr
  | doneNeedsResult : ValErr
  | searchNeedsQuery : ValErr
  | verificationNeedsMark : ValErr
deriving Repr, DecidableEq

/-- Whether an `Except` computation succeeded. -/
def except_ok {ε α : Type} : Except ε α → Bool
  | .ok _ => true
  | .error _ => false

/-- The per-step field checks of `ChainOfThoughtNode._validate_plan_step`
(nodes.py lines 556-576), before the `sub_steps` recursion: description
presence, a recognized status, and the status-specific companion field
(non-empty `result` for Done, `query` for Search Needed, `mark` for
Verification Needed); the first violation in source order is raised. -/
def validate_step_checks (s : Step) : Except ValErr Unit :=
  if s.description.isNone then .error .missingDescription
  else match s.status with
  | none => .error .missingStatus
  | some st =>
    if !(valid_statuses.contains st) then .error (.invalidStatus st)
    else if st == "Done" && !(option_truthy s.result) then .error .doneNeedsResult
    else if st == "Search Needed" && !(option_truthy s.query) then .error .searchNeedsQuery
    else if st == "Verification Needed" && !(option_truthy s.mark) then .error .verificationNeedsMark
    else .ok ()

/-- The `for step in response["planning"]: self._validate_plan_step(step)`
traversal (nodes.py lines 543-544 and 546-584), fail-fast in pre-order:
each step's own checks, then its `sub_steps` when that key is present with
a non-empty (truthy) list, then the following steps. -/
def validate_plan_steps : Plan → Except ValErr Unit
  | .nil => .ok ()
  | .cons d st r q m hs subs rest =>
    match ((match validate_step_checks ⟨d, st, r, q, m, hs, subs⟩ with
            | .error e => .error e
            | .ok _ =>
              if hs && !(subs == .nil) then validate_plan_steps subs
              else .ok ()) : Except ValErr Unit) with
    | .error e => .error e
    | .ok _ => validate_plan_steps rest

/-- `ChainOfThoughtNode._validate_plan_step` (nodes.py lines 546-584) on one
step: its own checks, then its truthy `sub_steps` recursively. -/
def validate_plan_step (s : Step) : Except ValErr Unit :=
  match validate_step_checks s with
  | .error e => .error e
  | .ok _ =>
    if s.subs_truthy then validate_plan_steps s.sub_steps else .ok ()

/-- The status/companion-field rule of one step as the spec words it (spec
sections 3 and 8), without the recursion: description present, status
recognized, the status-specific companion field present and non-empty.
Written independently of `validate_step_checks` so that the correspondence
between the two is a theorem, not a definition. -/
def step_rule_checks (s : Step) : Bool :=
  s.description.isSome &&
  (match s.status with | some st => valid_statuses.contains st | none => false) &&
  (!(s.status == some "Done") || option_truthy s.result) &&
  (!(s.status == some "Search Needed") || option_truthy s.query) &&
  (!(s.status == some "Verification Needed") || option_truthy s.mark)

/-- Every step of the plan satisfies its rule, recursively through the
`sub_steps` value whenever the key is present. -/
def plan_rule_holds : Plan → Bool
  | .nil => true
  | .cons d st r q m hs subs rest =>
    (step_rule_checks ⟨d, st, r, q, m, hs, subs⟩ &&
      (if hs then plan_rule_holds subs else true)) &&
    plan_rule_holds rest

/-- One step satisfies its rule, recursively through `sub_steps`. -/
def step_rule_holds (s : Step) : Bool :=
  step_rule_checks s && (if s.has_sub_steps then plan_rule_holds s.sub_steps else true)

/-- Drop the `result` key from a step (the mutation of testable property 1 of
the spec: "mutating any Done step to remove its result"). -/
def Step.drop_result (s : Step) : Step := { s with result := none }

/-- Replace a step's `sub_steps` with the given plan. -/
def Step.with_sub_steps (s : Step) (p : Plan) : Step :=
  { s with has_sub_steps := true, sub_steps := p }

/-- Address a step inside a plan: the first index selects a top-level step,
each further index descends into `sub_steps`. -/
def plan_get_at : Plan → List Nat → Option Step
  | _, [] => none
  | p, i :: rest =>
    match p.get i, rest with
    | none, _ => none
    | some s, [] => some s
    | some s, _ :: _ => plan_get_at s.sub_plan rest

/-- Remove the `result` key of the step addressed by the path, leaving the
rest of the plan unchanged. -/
def plan_drop_result_at : Plan → List Nat → Plan
  | p, [] => p
  | p, [i] => p.modify i Step.drop_result
  | p, i :: j :: rest =>
    p.modify i (fun s => s.with_sub_steps (plan_drop_result_at s.sub_plan (j :: rest)))

/-- `ChainOfThoughtNode._fix_llm_response` on one sub-step (nodes.py lines
226-230): add a default `result` to a Done sub-step missing one and a default
`query` to a Search Needed sub-step missing one (the `mark` fix is not
applied at sub-step level in the source). -/
def fix_sub_step (s : Step) : Step :=
  { s with
    result := if s.status == some "Done" && s.result.isNone then some "Completed" else s.result
    query := if s.status == some "Search Needed" && s.query.isNone then
      some "information needed" else s.query }

def fix_sub_plan : Plan → Plan
  | .nil => .nil
  | .cons d st r q m hs subs rest =>
    Plan.cons_step (fix_sub_step ⟨d, st, r, q, m, hs, subs⟩) (fix_sub_plan rest)

/-- `ChainOfThoughtNode._fix_llm_response` on one top-level step (nodes.py
lines 211-230): default `result` / `query` / `mark` for a missing companion
field, then the sub-step fix one level down when the `sub_steps` key is
present. -/
def fix_step (s : Step) : Step :=
  { s with
    result := if s.status == some "Done" && s.result.isNone then some "Completed" else s.result
    query := if s.status == some "Search Needed" && s.query.isNone then
      some "information needed" else s.query
    mark := if s.status == some "Verification Needed" && s.mark.isNone then
      some "Verification required" else s.mark
    sub_steps := if s.has_sub_steps then fix_sub_plan s.sub_steps else s.sub_steps }

def fix_plan : Plan → Plan
  | .nil => .nil
  | .cons d st r q m hs subs rest =>
    Plan.cons_step (fix_step ⟨d, st, r, q, m, hs, subs⟩) (fix_plan rest)

/-! ## Plan formatting (`utility.py` `format_plan` / `format_plan_for_prompt`) -/

def indent_string : Nat → String
  | 0 => ""
  | n + 1 => "  " ++ indent_string n

/-- The lines `format_plan` (utility.py lines 125-165) appends for one step
before its sub-plan: the `- description [status]` line and the optional
`Result:` / `Query:` / `Mark:` lines. -/
def format_step_own_lines (s : Step) (indent : Nat) : List String :=
  let indent_str := indent_string indent
  let status := s.status.getD "Unknown"
  [indent_str ++ "- " ++ s.description.getD "No description" ++ " [" ++ status ++ "]"] ++
  (if option_truthy s.result then [indent_str ++ "  Result: " ++ s.result.getD ""] else []) ++
  (if status == "Search Needed" && option_truthy s.query then
    [indent_str ++ "  Query: " ++ s.query.getD ""] else []) ++
  (if status == "Verification Needed" && option_truthy s.mark then
    [indent_str ++ "  Mark: " ++ s.mark.getD ""] else [])

/-- The element list `format_plan` joins: per step its own lines and, when
`sub_steps` is truthy, the joined sub-plan as one element (the source's
`if sub_plan_str` guard always holds for a non-empty sub-plan, whose
formatting starts with a `- ` line). -/
def format_plan_lines : Plan → Nat → List String
  | .nil, _ => []
  | .cons d st r q m hs subs rest, indent =>
    format_step_own_lines ⟨d, st, r, q, m, hs, subs⟩ indent ++
    (if hs && !(subs == .nil) then
      [String.intercalate "\n" (format_plan_lines subs (indent + 1))] else []) ++
    format_plan_lines rest indent

def format_plan (p : Plan) (indent : Nat) : String :=
  match p with
  | .nil => ""
  | .cons _ _ _ _ _ _ _ _ => String.intercalate "\n" (format_plan_lines p indent)

def format_plan_for_prompt (p : Plan) : String :=
  let formatted := format_plan p 0
  if formatted == "" then "No plan available" else formatted

/-! ## Responses, thoughts and the shared context -/

/-- The dict `call_llm` returns, as `_validate_response` sees it: the three
required fields, plus the `final_answer` field required when
`next_thought_needed` is false. A missing key (or one of the wrong runtime
type, which the validator rejects identically) is `none`. -/
structure LlmResponse where
  current_thinking : Option String
  planning : Option Plan
  next_thought_needed : Option Bool
  final_answer : Option String

/-- A thought as stored in `ctx["thoughts"]`: a response that passed
validation, with the `thought_number` the node assigned. -/
structure Thought where
  thought_number : Nat
  current_thinking : String
  planning : Plan
  next_thought_needed : Bool
  final_answer : Option String

/-- `ChainOfThoughtNode._validate_response` (nodes.py lines 513-544):
presence of the three required fields, their types (static here),
`final_answer` when `next_thought_needed` is false, then every plan step. -/
def validate_response (r : LlmResponse) : Except ValErr Unit :=
  if r.current_thinking.isNone then .error (.missingField "current_thinking")
  else if r.planning.isNone then .error (.missingField "planning")
  else if r.next_thought_needed.isNone then .error (.missingField "next_thought_needed")
  else if r.next_thought_needed == some false && r.final_answer.isNone then
    .error .missingFinalAnswer
  else validate_plan_steps (r.planning.getD .nil)

/-- `ChainOfThoughtNode._fix_llm_response` (nodes.py lines 200-232). -/
def fix_llm_response (r : LlmResponse) : LlmResponse :=
  match r.planning with
  | some p => { r with planning := some (fix_plan p) }
  | none => r

/-- Build the stored thought from a response plus its assigned
`thought_number`. Invoked only after `validate_response` succeeded, which
guarantees the three `getD` defaults are never taken. -/
def to_thought (r : LlmResponse) (n : Nat) : Thought :=
  { thought_number := n
    current_thinking := r.current_thinking.getD ""
    planning := r.planning.getD .nil
    next_thought_needed := r.next_thought_needed.getD true
    final_answer := r.final_answer }

/-- The thoughts-history text of `ChainOfThoughtNode.__call__` (nodes.py
lines 53-58): empty for no previous thoughts, otherwise the serialization of
the single most recent thought and its plan. -/
def thoughts_history_text (thoughts : List Thought) : String :=
  match thoughts.getLast? with
  | none => ""
  | some last =>
    "Previous thought #" ++ toString last.thought_number ++ ":\n" ++
      last.current_thinking ++ "\n\n" ++
      "Current plan status:\n" ++ format_plan_for_prompt last.planning ++ "\n\n"

/-- Python `pat in s` substring membership for the non-empty literals this
code searches for. -/
def str_contains (s pat : String) : Bool := !((s.splitOn pat).length == 1)

/-- First-occurrence deduplication. Models both `list(dict.fromkeys(urls))`
(scraper.py line 127, exact) and `list(set(...))` (nodes.py line 198,
search.py line 160 - CPython set iteration order is unspecified; the model
fixes first-occurrence order). -/
def dedup_go : List String → List String → List String
  | [], _ => []
  | x :: rest, seen =>
    if seen.contains x then dedup_go rest seen else x :: dedup_go rest (x :: seen)

def dedup_keep_first (l : List String) : List String := dedup_go l []

/-- `ChainOfThoughtNode._extract_plan_results` (nodes.py lines 159-176):
the `- description: result` line of every Done step carrying a `result`
key, recursing into `sub_steps` whenever that key is present. The source
reads `step['description']` directly on such a step; a missing description
would raise there, modelled by the (never relied upon) `getD ""`. -/
def extract_plan_results : Plan → List String
  | .nil => []
  | .cons d st r _ _ hs subs rest =>
    (if st == some "Done" && r.isSome then
      ["- " ++ d.getD "" ++ ": " ++ r.getD ""] else []) ++
    (if hs then extract_plan_results subs else []) ++
    extract_plan_results rest

/-- `ChainOfThoughtNode._extract_sources` (nodes.py lines 178-198). -/
def extract_sources (thoughts : List Thought) : List String :=
  dedup_keep_first (List.join (thoughts.map (fun t =>
    let thinking := t.current_thinking
    if str_contains thinking "Source:" || str_contains thinking "source:" then
      ((thinking.splitOn "\n").filter
        (fun line => str_contains line "Source:" || str_contains line "source:")).map
        String.trim
    else [])))

/-- `ChainOfThoughtNode._extract_final_solution` (nodes.py lines 123-157):
the `final_answer` when present, otherwise the synthesized fallback from the
final thinking, the plan's Done results and the collected sources. -/
def extract_final_solution (final_response : LlmResponse) (all_thoughts : List Thought) :
    String :=
  match final_response.final_answer with
  | some a => a
  | none =>
    let parts := [final_response.current_thinking.getD ""]
    let parts := parts ++
      (match final_response.planning with
       | some p =>
         let results := extract_plan_results p
         if results.isEmpty then [] else "\nKey Findings:" :: results
       | none => [])
    let sources := extract_sources all_thoughts
    let parts := parts ++ (if sources.isEmpty then [] else "\nSources:" :: sources)
    String.intercalate "\n" parts

/-- `ChainOfThoughtNode._extract_search_queries` inner traversal (nodes.py
lines 250-257): collect the `query` of every step whose status is
Search Needed with a truthy query, recursing into truthy (non-empty)
`sub_steps`, in pre-order. -/
def plan_search_queries : Plan → List String
  | .nil => []
  | .cons _ st _ q _ hs subs rest =>
    (if st == some "Search Needed" && option_truthy q then [q.getD ""] else []) ++
    (if hs && !(subs == .nil) then plan_search_queries subs else []) ++
    plan_search_queries rest

/-- `ChainOfThoughtNode._extract_search_queries` (nodes.py lines 234-258):
queries of the most recent thought's plan; none when there is no thought. -/
def extract_search_queries (thoughts : List Thought) : List String :=
  match thoughts.getLast? with
  | none => []
  | some last => plan_search_queries last.planning

/-! ## The augmentation cache (`_perform_searches`, `WebScraper`) -/

/-- One parsed result of `QwantSearch.parse_web_results` (search.py lines
104-130). -/
structure SearchResult where
  title : String
  url : String
  domain : String
  description : String
  favicon : String
  thumbnail : String
deriving Repr, DecidableEq

/-- The result dict of `WebScraper.scrape_url` (scraper.py): a tagged
success/failure record, never an exception. -/
structure ScrapeRecord where
  url : String
  success : Bool
  error : Option String
  title : String
  content : String
  links : List String
deriving Repr, DecidableEq

/-- A value of the `ctx["scraped_content"]` cache (nodes.py lines 326-340). -/
structure ScrapedItem where
  title : String
  content : String
  url : String
deriving Repr, DecidableEq

/-- Python dicts with string keys, as insertion-ordered association lists
with unique keys. -/
def assoc_get {α : Type} : List (String × α) → String → Option α
  | [], _ => none
  | (k, v) :: rest, key => if k == key then some v else assoc_get rest key

def assoc_has {α : Type} (m : List (String × α)) (k : String) : Bool :=
  (assoc_get m k).isSome

/-- `m[k] = v`: replace in place when the key exists, append otherwise. -/
def assoc_set {α : Type} (m : List (String × α)) (k : String) (v : α) :
    List (String × α) :=
  if assoc_has m k then m.map (fun kv => if kv.1 == k then (k, v) else kv)
  else m ++ [(k, v)]

/-- `m.update(other)` in insertion order of `other`. -/
def assoc_update_all {α : Type} (m other : List (String × α)) : List (String × α) :=
  other.foldl (fun acc kv => assoc_set acc kv.1 kv.2) m

/-- `ChainOfThoughtNode._perform_searches` (nodes.py lines 260-294). The
external `search` + `parse_web_results` collaborator pair enters as
`search_fn`; an exception it raises is `Except.error` and yields an empty
result list for that query only. A query already in `previous_results` takes
the cached value without consulting the collaborator. -/
def perform_searches (search_fn : String → Except String (List SearchResult))
    (queries : List String)
    (previous_results : List (String × List SearchResult)) :
    List (String × List SearchResult) :=
  queries.foldl
    (fun results query =>
      match assoc_get previous_results query with
      | some cached => assoc_set results query cached
      | none =>
        match search_fn query with
        | .ok rs => assoc_set results query rs
        | .error _ => assoc_set results query [])
    []

/-- The per-URL outcome conversion of `scrape_multiple_urls` (scraper.py
lines 135-147): the awaited task's record (`scrape_url` enters as the
collaborator `scrape_fn`), or, when the task ended in an exception
(surfaced by `gather(..., return_exceptions=True)`), the `success = false`
record built from it - never a raised exception. -/
def scrape_outcome (scrape_fn : String → Except String ScrapeRecord) (url : String) :
    ScrapeRecord :=
  match scrape_fn url with
  | .ok r => r
  | .error e =>
    { url := url, success := false,
      error := some ("Exception during scraping: " ++ e),
      title := "", content := "", links := [] }

/-- `WebScraper.scrape_multiple_urls` (scraper.py lines 116-149): dedupe
preserving order, then scrape every URL concurrently, converting each
per-task exception into a tagged record. -/
def scrape_multiple_urls (scrape_fn : String → Except String ScrapeRecord)
    (urls : List String) : List (String × ScrapeRecord) :=
  let unique_urls := dedup_keep_first urls
  unique_urls.map (fun url => (url, scrape_outcome scrape_fn url))

/-- The URL-collection loop of `_scrape_search_results` (nodes.py lines
309-315): the first `max_scraped_urls` results per query, skipping empty
URLs, URLs already scraped, and URLs already collected. -/
def collect_urls_to_scrape (max_scraped_urls : Nat)
    (search_results : List (String × List SearchResult))
    (previous_content : List (String × ScrapedItem)) : List String :=
  search_results.foldl
    (fun acc qr =>
      (qr.2.take max_scraped_urls).foldl
        (fun acc2 r =>
          if !(r.url == "") && !(assoc_has previous_content r.url) && !(acc2.contains r.url)
          then acc2 ++ [r.url] else acc2)
        acc)
    []

/-- `ChainOfThoughtNode._scrape_search_results` (nodes.py lines 296-342). -/
def scrape_search_results (scrape_fn : String → Except String ScrapeRecord)
    (max_scraped_urls : Nat)
    (search_results : List (String × List SearchResult))
    (previous_content : List (String × ScrapedItem)) : List (String × ScrapedItem) :=
  let urls_to_scrape := collect_urls_to_scrape max_scraped_urls search_results previous_content
  if urls_to_scrape.isEmpty then []
  else
    (scrape_multiple_urls scrape_fn urls_to_scrape).map (fun ud =>
      if ud.2.success then
        (ud.1, { title := ud.2.title, content := ud.2.content, url := ud.1 })
      else
        (ud.1, { title := "Error",
                 content := "Error scraping content: " ++ (ud.2.error.getD "Unknown error"),
                 url := ud.1 }))

/-- `ChainOfThoughtNode._format_search_results` (nodes.py lines 344-368). -/
def format_search_results (search_results : List (String × List SearchResult)) : String :=
  if search_results.isEmpty then "No recent search results."
  else
    String.intercalate "\n"
      (List.join (search_results.map (fun qr =>
        ["Results for '" ++ qr.1 ++ "':"] ++
        (List.join ((qr.2.take 3).enum.map (fun ir =>
          ["  " ++ toString (ir.1 + 1) ++ ". " ++ ir.2.title,
           "     " ++ ir.2.description.take 100 ++ "...",
           "     URL: " ++ ir.2.url]))) ++
        (if 3 < qr.2.length then
          ["  ... and " ++ toString (qr.2.length - 3) ++ " more results"] else []) ++
        [""])))

/-- `ChainOfThoughtNode._format_scraped_content` (nodes.py lines 370-395). -/
def format_scraped_content (scraped_content : List (String × ScrapedItem)) : String :=
  if scraped_content.isEmpty then "No scraped content."
  else
    String.intercalate "\n"
      ((List.join ((scraped_content.take 5).map (fun uc =>
        ["From '" ++ uc.2.title ++ "':",
         "  " ++ (uc.2.content.take 500 ++ (if 500 < uc.2.content.length then "..." else "")),
         "  Source: " ++ uc.1,
         ""]))) ++
       (if 5 < scraped_content.length then
         ["... and " ++ toString (scraped_content.length - 5) ++ " more sources"] else []))

/-- The shared context dict. `problem = none` models the key being absent
(the node's initialization test); the other fields model the keys the
initialization block writes, plus `candidates`, written by the parallel
explore node. -/
structure Ctx where
  problem : Option String
  thoughts : List Thought
  current_thought_number : Nat
  solution : Option String
  search_results : List (String × List SearchResult)
  scraped_content : List (String × ScrapedItem)
  candidates : List (Option String)

/-- `ctx = {}`: no `problem` key yet, every initialized-later field at the
value the initialization block will give it. -/
def empty_ctx : Ctx :=
  { problem := none, thoughts := [], current_thought_number := 0, solution := none
    search_results := [], scraped_content := [], candidates := [] }

/-- The `Params` bundle (`pocketflow.Params`): the entries this code reads
from `p.data`. -/
structure ParamsT where
  problem : Option String
  sub_problems : List String

/-! ## Graph executor (`pocketflow.py`) -/

/-- A `Flow`: the designated start node and the action-to-node edge table
(`self._edges`, a dict). -/
structure FlowG (ν : Type) where
  start : ν
  edges : List (String × ν)

/-- `Flow.edge` (pocketflow.py lines 35-36): register a transition; a repeat
registration for the same action overwrites (dict assignment). -/
def FlowG.edge {ν : Type} (f : FlowG ν) (action : String) (node : ν) : FlowG ν :=
  { f with edges := assoc_set f.edges action node }

/-- The `_visit` loop of `Flow.run` (pocketflow.py lines 52-58), with the
node invocation `await node(ctx, params)` as the deterministic
state-passing function `step` and recursion bounded by fuel (`none` = fuel
ran out before an action had no edge). The semaphore only limits
cross-instance concurrency and cannot change this sequential result. -/
def run_flow_aux {ν σ α : Type} (step : ν → σ → (String × α) × σ)
    (edges : List (String × ν)) : Nat → ν → σ → Option (α × σ)
  | 0, _, _ => none
  | fuel + 1, node, s =>
    let r := step node s
    match assoc_get edges r.1.1 with
    | none => some (r.1.2, r.2)
    | some next => run_flow_aux step edges fuel next r.2

/-- `Flow.run`: `_visit(self._start)`; the Python function returns the value
and mutates the context in place, modelled by returning both. -/
def FlowG.run {ν σ α : Type} (f : FlowG ν) (step : ν → σ → (String × α) × σ)
    (fuel : Nat) (s : σ) : Option (α × σ) :=
  run_flow_aux step f.edges fuel f.start s

/-- The spec's description of the executor (spec section 4.1): starting from
a node, repeatedly invoke the current node and follow the edge named by the
returned action; when an action has no registered edge, stop and return
that invocation's value. -/
inductive FlowRun {ν σ α : Type} (step : ν → σ → (String × α) × σ)
    (edges : List (String × ν)) : ν → σ → α → σ → Prop where
  | last : ∀ n s a v s', step n s = ((a, v), s') → assoc_get edges a = none →
      FlowRun step edges n s v s'
  | hop : ∀ n s a v s' next w s'', step n s = ((a, v), s') →
      assoc_get edges a = some next → FlowRun step edges next s' w s'' →
      FlowRun step edges n s w s''

/-- The attempt loop of `Retry.__call__` (pocketflow.py lines 93-103).
`inner n` is the outcome of the n-th (0-based) invocation of the wrapped
node; `left` is the number of attempts remaining after the current one, and
the second component counts the `await asyncio.sleep(delay)` calls (the
backoff durations and jitter affect only timing, not control flow). On the
last attempt the outcome - the value or the unmodified exception -
propagates. -/
def retry_go {ε α : Type} (inner : Nat → Except ε α) (attempt : Nat) (sleeps : Nat) :
    Nat → Except ε α × Nat
  | 0 => (inner attempt, sleeps)
  | left + 1 =>
    match inner attempt with
    | .ok a => (.ok a, sleeps)
    | .error _ => retry_go inner (attempt + 1) (sleeps + 1) left

/-- `Retry(inner, tries=tries).__call__`: `self.tries = max(tries, 1)` total
attempts. -/
def retry_call {ε α : Type} (inner : Nat → Except ε α) (tries : Nat) : Except ε α × Nat :=
  retry_go inner 0 0 (max tries 1 - 1)

/-! ## The response parsing pipeline (`utility.py` `_parse_llm_response`) -/

/-- Parsed JSON values (the output of `json.loads`). Numbers keep their
lexeme: no property in this development depends on numeric decoding. -/
inductive Json where
  | null : Json
  | bool : Bool → Json
  | num : String → Json
  | str : String → Json
  | arr : List Json → Json
  | obj : List (String × Json) → Json

/-- JSON insignificant whitespace (also what `json.loads` skips). -/
def skip_ws : List Char → List Char
  | [] => []
  | c :: rest =>
    if c == ' ' || c == '\n' || c == '\t' || c == '\r' then skip_ws rest else c :: rest

def hex_val (c : Char) : Option Nat :=
  let n := c.toNat
  if 48 ≤ n ∧ n ≤ 57 then some (n - 48)
  else if 97 ≤ n ∧ n ≤ 102 then some (n - 87)
  else if 65 ≤ n ∧ n ≤ 70 then some (n - 55)
  else none

/-- Decode a one-character JSON escape (everything except `\u`). -/
def json_escape_char (e : Char) : Option Char :=
  if e == '"' then some '"'
  else if e == '\\' then some '\\'
  else if e == '/' then some '/'
  else if e == 'b' then some '\x08'
  else if e == 'f' then some '\x0c'
  else if e == 'n' then some '\n'
  else if e == 'r' then some '\r'
  else if e == 't' then some '\t'
  else none

/-- JSON string body after the opening quote, with the standard escapes
(surrogate pairing of `\u` escapes is not modelled; no evaluated input
contains one). -/
def parse_json_string : List Char → Option (String × List Char)
  | [] => none
  | '"' :: rest => some ("", rest)
  | '\\' :: 'u' :: h1 :: h2 :: h3 :: h4 :: rest3 =>
    (match hex_val h1, hex_val h2, hex_val h3, hex_val h4 with
     | some a, some b, some c', some d =>
       match parse_json_string rest3 with
       | some (s, rest') =>
         some (String.singleton (Char.ofNat (((a * 16 + b) * 16 + c') * 16 + d)) ++ s, rest')
       | none => none
     | _, _, _, _ => none)
  | '\\' :: e :: rest2 =>
    (match json_escape_char e with
     | some ch =>
       match parse_json_string rest2 with
       | some (s, rest') => some (String.singleton ch ++ s, rest')
       | none => none
     | none => none)
  | c :: rest =>
    if c == '\\' then none
    else if c.toNat < 32 then none
    else
      match parse_json_string rest with
      | some (s, rest') => some (String.singleton c ++ s, rest')
      | none => none

def span_digits (cs : List Char) : List Char × List Char :=
  (cs.takeWhile Char.isDigit, cs.dropWhile Char.isDigit)

/-- JSON number grammar; the lexeme is returned undecoded. -/
def parse_json_number (cs : List Char) : Option (String × List Char) :=
  let (sign, cs1) := match cs with
    | '-' :: r => (['-'], r)
    | _ => (([] : List Char), cs)
  match cs1 with
  | '0' :: r1 =>
    let intPart := ['0']
    let (frac, r2) := match r1 with
      | '.' :: r' =>
        let (ds, r'') := span_digits r'
        if ds.isEmpty then (([] : List Char), '.' :: r'') else ('.' :: ds, r'')
      | _ => (([] : List Char), r1)
    match r1, frac with
    | '.' :: _, [] => none
    | _, _ =>
      let (ex, r3) := match r2 with
        | e :: sg :: r' =>
          if (e == 'e' || e == 'E') && (sg == '+' || sg == '-') then
            let (ds, r'') := span_digits r'
            if ds.isEmpty then (([] : List Char), r2) else (e :: sg :: ds, r'')
          else if (e == 'e' || e == 'E') && sg.isDigit then
            let (ds, r'') := span_digits (sg :: r')
            (e :: ds, r'')
          else (([] : List Char), r2)
        | _ => (([] : List Char), r2)
      some (String.mk (sign ++ intPart ++ frac ++ ex), r3)
  | c :: _ =>
    if c.isDigit then
      let (intPart, r1) := span_digits cs1
      let (frac, r2) := match r1 with
        | '.' :: r' =>
          let (ds, r'') := span_digits r'
          if ds.isEmpty then (([] : List Char), '.' :: r'') else ('.' :: ds, r'')
        | _ => (([] : List Char), r1)
      match r1, frac with
      | '.' :: _, [] => none
      | _, _ =>
        let (ex, r3) := match r2 with
          | e :: sg :: r' =>
            if (e == 'e' || e == 'E') && (sg == '+' || sg == '-') then
              let (ds, r'') := span_digits r'
              if ds.isEmpty then (([] : List Char), r2) else (e :: sg :: ds, r'')
            else if (e == 'e' || e == 'E') && sg.isDigit then
              let (ds, r'') := span_digits (sg :: r')
              (e :: ds, r'')
            else (([] : List Char), r2)
          | _ => (([] : List Char), r2)
        some (String.mk (sign ++ intPart ++ frac ++ ex), r3)
    else none
  | [] => none

def drop_lit (lit : List Char) (cs : List Char) : Option (List Char) :=
  if lit.isPrefixOf cs then some (cs.drop lit.length) else none

mutual

/-- Recursive-descent JSON value parser, fuel-bounded (`json.loads` also
accepts the CPython extras `NaN`, `Infinity`, `-Infinity`). -/
def parse_json_val : Nat → List Char → Option (Json × List Char)
  | 0, _ => none
  | fuel + 1, cs =>
    match skip_ws cs with
    | [] => none
    | c :: rest =>
      if c == '"' then
        match parse_json_string rest with
        | some (s, rest') => some (.str s, rest')
        | none => none
      else if c == '{' then
        match skip_ws rest with
        | '}' :: rest' => some (.obj [], rest')
        | cs2 =>
          match parse_json_members fuel cs2 with
          | some (kvs, rest') => some (.obj kvs, rest')
          | none => none
      else if c == '[' then
        match skip_ws rest with
        | ']' :: rest' => some (.arr [], rest')
        | cs2 =>
          match parse_json_items fuel cs2 with
          | some (vs, rest') => some (.arr vs, rest')
          | none => none
      else
        match drop_lit ("true".data) (c :: rest) with
        | some rest' => some (.bool true, rest')
        | none =>
        match drop_lit ("false".data) (c :: rest) with
        | some rest' => some (.bool false, rest')
        | none =>
        match drop_lit ("null".data) (c :: rest) with
        | some rest' => some (.null, rest')
        | none =>
        match drop_lit ("NaN".data) (c :: rest) with
        | some rest' => some (.num "NaN", rest')
        | none =>
        match drop_lit ("Infinity".data) (c :: rest) with
        | some rest' => some (.num "Infinity", rest')
        | none =>
        match drop_lit ("-Infinity".data) (c :: rest) with
        | some rest' => some (.num "-Infinity", rest')
        | none =>
        match parse_json_number (c :: rest) with
        | some (lexeme, rest') => some (.num lexeme, rest')
        | none => none

def parse_json_members : Nat → List Char → Option (List (String × Json) × List Char)
  | 0, _ => none
  | fuel + 1, cs =>
    match skip_ws cs with
    | '"' :: rest =>
      match parse_json_string rest with
      | none => none
      | some (key, rest1) =>
        match skip_ws rest1 with
        | ':' :: rest2 =>
          match parse_json_val fuel rest2 with
          | none => none
          | some (v, rest3) =>
            match skip_ws rest3 with
            | ',' :: rest4 =>
              match parse_json_members fuel rest4 with
              | some (kvs, rest5) => some ((key, v) :: kvs, rest5)
              | none => none
            | '}' :: rest4 => some ([(key, v)], rest4)
            | _ => none
        | _ => none
    | _ => none

def parse_json_items : Nat → List Char → Option (List Json × List Char)
  | 0, _ => none
  | fuel + 1, cs =>
    match parse_json_val fuel cs with
    | none => none
    | some (v, rest) =>
      match skip_ws rest with
      | ',' :: rest2 =>
        match parse_json_items fuel rest2 with
        | some (vs, rest3) => some (v :: vs, rest3)
        | none => none
      | ']' :: rest2 => some ([v], rest2)
      | _ => none

end

/-- `json.loads`: a single JSON document covering the whole input up to
trailing whitespace. -/
def json_loads (s : String) : Option Json :=
  match parse_json_val (s.length + 1) s.data with
  | some (v, rest) => if (skip_ws rest).isEmpty then some v else none
  | none => none

def drop_many_s : List Char → List Char
  | 's' :: rest => drop_many_s rest
  | cs => cs

def in_class_bsS (c : Char) : Bool := c == '\\' || c == 's' || c == 'S'

/-- Strategy 2's regex as written in the source (utility.py line 70):
`r'```(?:json)?\\s*({[\\s\\S]*?})\\s*```'`. Inside the raw string the doubled
backslash makes `\\s*` a literal backslash followed by zero or more `s`
characters, and `[\\s\\S]` the three-character class backslash / `s` / `S`.
This matches the pattern at one position; the optional `json` needs no
backtracking (when present, the following character must be a backslash,
never the `j` that re-reading it as part of the group prefix would need),
and the lazy group is unambiguous because its class excludes the closing
brace. -/
def fenced_json_at (cs : List Char) : Option String :=
  match drop_lit ("```".data) cs with
  | none => none
  | some cs1 =>
    let cs2 := match drop_lit ("json".data) cs1 with | some r => r | none => cs1
    match cs2 with
    | '\\' :: cs3 =>
      (match drop_many_s cs3 with
       | '{' :: cs4 =>
         let body := cs4.takeWhile in_class_bsS
         (match cs4.drop body.length with
          | '}' :: '\\' :: cs5 =>
            if ("```".data).isPrefixOf (drop_many_s cs5) then
              some (String.mk ('{' :: body ++ ['}']))
            else none
          | _ => none)
       | _ => none)
    | _ => none

/-- `re.search` over strategy 2's pattern: the leftmost match. -/
def search_fenced_json : List Char → Option String
  | [] => none
  | c :: rest =>
    match fenced_json_at (c :: rest) with
    | some g => some g
    | none => search_fenced_json rest

/-- The lazy group body of strategy 5's regex: the shortest run of
class-`[\\sS]` characters followed by backslash, `s`*, and a closing
fence. -/
def fenced_yaml_group : List Char → Option (List Char)
  | [] => none
  | c :: rest =>
    if c == '\\' && ("```".data).isPrefixOf (drop_many_s rest) then some []
    else if in_class_bsS c then
      match fenced_yaml_group rest with
      | some body => some (c :: body)
      | none => none
    else none

/-- Strategy 5's regex as written in the source (utility.py line 102):
`r'```(?:yaml)?\\s*([\\s\\S]*?)\\s*```'`, with the same doubled-backslash
reading as strategy 2. -/
def fenced_yaml_at (cs : List Char) : Option String :=
  match drop_lit ("```".data) cs with
  | none => none
  | some cs1 =>
    let cs2 := match drop_lit ("yaml".data) cs1 with | some r => r | none => cs1
    match cs2 with
    | '\\' :: cs3 => (fenced_yaml_group (drop_many_s cs3)).map String.mk
    | _ => none

def search_fenced_yaml : List Char → Option String
  | [] => none
  | c :: rest =>
    match fenced_yaml_at (c :: rest) with
    | some g => some g
    | none => search_fenced_yaml rest

/-- The counting loop of strategy 3 (utility.py lines 81-90): starting at
the first `{`, count braces naively (string literals included, as the
source does) until the count returns to zero, and take that slice; `none`
when the braces never balance (the Python loop then falls through without
returning). -/
def brace_scan : List Char → Int → List Char → Option (List Char)
  | [], _, _ => none
  | c :: rest, count, acc =>
    if c == '{' then brace_scan rest (count + 1) (acc ++ [c])
    else if c == '}' then
      if count == 1 then some (acc ++ [c])
      else brace_scan rest (count - 1) (acc ++ [c])
    else brace_scan rest count (acc ++ [c])

/-- Strategy 3: `response_text.find('{')` then the brace-counting slice. -/
def first_brace_slice (cs : List Char) : Option (List Char) :=
  match cs.dropWhile (fun c => !(c == '{')) with
  | [] => none
  | c :: rest => brace_scan (c :: rest) 0 []

/-- Modelled collaborator: PyYAML `yaml.safe_load`, represented on the
fragment this development evaluates it on. A YAML document whose first
non-blank character opens a flow collection (`{` or `[`) must close it
before the document ends, and on the flow-style documents evaluated here
the JSON grammar agrees with PyYAML; block-style documents are
conservatively modelled as not parsing. -/
def yaml_safe_load (s : String) : Option Json :=
  match skip_ws s.data with
  | '{' :: rest => json_loads (String.mk ('{' :: rest))
  | '[' :: rest => json_loads (String.mk ('[' :: rest))
  | _ => none

/-- One match of strategy 6's regex `{[^{}]*(?:{[^{}]*}[^{}]*)*}` after its
opening brace: non-brace runs interleaved with complete single-level
`{...}` groups, then the closing brace. Returns the matched body (with the
final brace) and the remainder. Fuel-bounded; the greedy repetition is
deterministic because the bracket classes are disjoint. -/
def brace_group_body : Nat → List Char → Option (List Char × List Char)
  | 0, _ => none
  | fuel + 1, cs =>
    let run := cs.takeWhile (fun c => !(c == '{') && !(c == '}'))
    match cs.drop run.length with
    | '}' :: r => some (run ++ ['}'], r)
    | '{' :: r =>
      let irun := r.takeWhile (fun c => !(c == '{') && !(c == '}'))
      (match r.drop irun.length with
       | '}' :: r2 =>
         match brace_group_body fuel r2 with
         | some (tail, after) => some (run ++ '{' :: irun ++ '}' :: tail, after)
         | none => none
       | _ => none)
    | _ => none

def brace_group_at (fuel : Nat) (cs : List Char) : Option (List Char × List Char) :=
  match cs with
  | '{' :: rest =>
    (match brace_group_body fuel rest with
     | some (body, after) => some ('{' :: body, after)
     | none => none)
  | _ => none

/-- `re.findall` over strategy 6's pattern: leftmost non-overlapping
matches, the scan resuming after each match. -/
def find_brace_groups : Nat → List Char → List (List Char)
  | 0, _ => []
  | _ + 1, [] => []
  | fuel + 1, c :: rest =>
    match brace_group_at (fuel + 1) (c :: rest) with
    | some (g, after) => g :: find_brace_groups fuel after
    | none => find_brace_groups fuel rest

/-- Strategy 6's inner loop: the first candidate that `json.loads`
accepts. -/
def first_parsing_group : List (List Char) → Option Json
  | [] => none
  | g :: rest =>
    match json_loads (String.mk g) with
    | some v => some v
    | none => first_parsing_group rest

/-- Python `str.strip()` (whitespace from both ends), written over the
character list so it computes by kernel reduction. -/
def py_strip (s : String) : String :=
  String.mk (((s.data.dropWhile Char.isWhitespace).reverse.dropWhile Char.isWhitespace).reverse)

/-- `_parse_llm_response` (utility.py lines 46-123): strip, then the six
fallback strategies in priority order, first success winning; on total
failure, the `ValueError` whose message carries the first-500-character
sample (the backslash line continuation inside the source's f-string
contributes no characters). -/
def parse_llm_response_text (response_text : String) : Except String Json :=
  let t := py_strip response_text
  match json_loads t with
  | some v => .ok v
  | none =>
  match (search_fenced_json t.data).bind json_loads with
  | some v => .ok v
  | none =>
  match (first_brace_slice t.data).bind (fun sl => json_loads (String.mk sl)) with
  | some v => .ok v
  | none =>
  match yaml_safe_load t with
  | some v => .ok v
  | none =>
  match (search_fenced_yaml t.data).bind yaml_safe_load with
  | some v => .ok v
  | none =>
  match first_parsing_group (find_brace_groups (t.data.length + 1) t.data) with
  | some v => .ok v
  | none =>
    let sample := String.mk (t.data.take 500) ++ (if 500 < t.data.length then "..." else "")
    .error ("Failed to parse LLM response. Attempted multiple parsing strategies.Response sample: "
      ++ sample)

/-- The fixed leading template of `_construct_prompt` (nodes.py lines
409-417), up to the `PROBLEM:` splice. -/
def prompt_base_a : String :=
  "You are an expert problem solver using a Chain of Thought approach. \nYou break down complex problems into clear, logical steps and solve them systematically.\nYou are thorough, accurate, and verify your work when possible.\nYou can search the web for information and use scraped content to inform your answers.\n\nPROBLEM:\n"

/-- The template text between the problem splice and the branch on
`is_first_thought`. -/
def prompt_base_b : String :=
  "\n\n"

/-- The first-thought instruction block (nodes.py lines 420-427). -/
def prompt_first : String :=
  "This is the first step in solving this problem. Please:\n1. Analyze the problem carefully, identifying key components and requirements\n2. Create a comprehensive initial plan with clear, actionable steps\n3. Begin executing the first step of your plan with detailed reasoning\n4. Update the plan status accordingly with specific results\n5. If you need to search for information, mark the step as \"Search Needed\" with a specific query\n\n"

/-- The follow-up instruction block before the history splice (nodes.py
lines 429-430). -/
def prompt_else_a : String :=
  "PREVIOUS THOUGHTS AND PLAN:\n"

/-- The follow-up instruction block after the history splice (nodes.py
lines 431-442). -/
def prompt_else_b : String :=
  "\nBased on the previous thought, plan status, search results, and scraped content, please:\n1. Critically evaluate the previous step's reasoning and results for accuracy\n2. Identify any errors, gaps, or issues that need to be addressed\n3. Use the scraped content to inform your answers when relevant\n4. Execute the next pending step in the plan with detailed reasoning\n5. If needed, refine the plan by breaking down complex steps into more granular sub-steps\n6. Update the status of plan steps and record specific, concise results\n7. If you need to search for information, mark steps as \"Search Needed\" with a specific query\n8. If verification is needed, mark steps as \"Verification Needed\" with a clear reason\n9. When you have completed all steps and have a comprehensive answer, set next_thought_needed to false and provide a final_answer field with your complete response\n\n"

/-- The schema/requirements block (nodes.py lines 444-510). -/
def prompt_requirements : String :=
  "Please provide your response in JSON format with the following structure (strictly follow this schema):\n\n```\n\x7b\n  \"current_thinking\": \"[Your detailed evaluation and thinking for this step - be comprehensive and logical. Reference scraped content when relevant.]\",\n  \"planning\": [\n    \x7b\n      \"description\": \"[Step description - specific and actionable]\",\n      \"status\": \"[Pending|Done|Verification Needed|Search Needed]\",\n      \"result\": \"[REQUIRED IF STATUS IS DONE: Concise result when status is Done]\",\n      \"query\": \"[REQUIRED IF STATUS IS SEARCH NEEDED: Specific search query when status is Search Needed]\",\n      \"mark\": \"[REQUIRED IF STATUS IS VERIFICATION NEEDED: Reason for Verification Needed]\",\n      \"sub_steps\": [\n        \x7b\n          \"description\": \"[Sub-step description - specific and actionable]\",\n          \"status\": \"[Pending|Done|Search Needed]\",\n          \"result\": \"[REQUIRED IF STATUS IS DONE: Concise result when status is Done]\",\n          \"query\": \"[REQUIRED IF STATUS IS SEARCH NEEDED: Specific search query when status is Search Needed]\"\n        \x7d\n        // ... more sub-steps if needed\n      ]\n    \x7d\n    // ... more steps if needed\n  ],\n  \"next_thought_needed\": true,\n  \"final_answer\": \"[REQUIRED ONLY WHEN next_thought_needed IS false: Your complete, comprehensive final answer to the original problem]\"\n\x7d\n```\n\nIMPORTANT REQUIREMENTS:\n- Status meanings:\n  * \"Pending\": For steps not yet started\n  * \"Done\": For completed steps (MUST include \"result\" field)\n  * \"Verification Needed\": For steps that need verification (MUST include \"mark\" field)\n  * \"Search Needed\": For steps requiring external information (MUST include \"query\" field)\n- All \"Done\" steps MUST have a \"result\" field with a concise result description\n- All \"Search Needed\" steps MUST have a \"query\" field with a specific search query\n- All \"Verification Needed\" steps MUST have a \"mark\" field with a clear reason\n- When you have completed your analysis and have a comprehensive answer to the original problem:\n  * Set next_thought_needed to false\n  * Provide a \"final_answer\" field containing your complete, well-structured response to the original problem\n  * The final_answer should synthesize all your findings into a coherent, comprehensive response\n- Ensure all JSON is properly formatted and all fields are correctly filled out\n- When using scraped content, reference the source URL in your thinking\n\nExample of correct \"Done\" step:\n\x7b\n  \"description\": \"Research Keynesian fiscal policy\",\n  \"status\": \"Done\",\n  \"result\": \"Keynes advocated for government spending during recessions to stimulate demand\"\n\x7d\n\nExample of correct \"Search Needed\" step:\n\x7b\n  \"description\": \"Research modern applications of Keynesian theory\",\n  \"status\": \"Search Needed\",\n  \"query\": \"modern applications of Keynesian economic theory 2020s\"\n\x7d\n\nExample of final response:\n\x7b\n  \"current_thinking\": \"All steps have been completed and I have a comprehensive understanding...\",\n  \"planning\": [...],\n  \"next_thought_needed\": false,\n  \"final_answer\": \"This is my complete, comprehensive answer to the original problem...\"\n\x7d\n"

/-- `ChainOfThoughtNode._construct_prompt` (nodes.py lines 397-511). -/
def construct_prompt (problem : String) (thoughts_history : String)
    (is_first_thought : Bool) : String :=
  prompt_base_a ++ problem ++ prompt_base_b ++
  (if is_first_thought then prompt_first
   else prompt_else_a ++ thoughts_history ++ prompt_else_b) ++
  prompt_requirements

/-! ## `ChainOfThoughtNode.__call__` (nodes.py lines 27-121) -/

/-- What aborts one node invocation: a `ValueError` escaping `call_llm`
(parse failure, carrying its message) or a `ValueError` escaping the second
`_validate_response` (after the single `_fix_llm_response` pass). -/
inductive NodeErr where
  | parseFailure : String → NodeErr
  | validation : ValErr → NodeErr
deriving Repr, DecidableEq

/-- The external completion transport (`call_llm` minus its parsing): a
scripted collaborator consumed one reply per call, so that the number of
model calls an execution makes is observable. The prompt is delivered but a
stub's replies do not depend on it; an empty script stands for a transport
error. Each reply is either the parsed response dict or the `ValueError`
that `_parse_llm_response` raised inside `call_llm`. -/
def take_scripted_reply (script : List (Except String LlmResponse)) (_prompt : String) :
    Except String LlmResponse × List (Except String LlmResponse) :=
  match script with
  | [] => (.error "transport error", [])
  | r :: rest => (r, rest)

/-- The post-validation tail of `__call__` (nodes.py lines 93-121): assign
`thought_number`, append the thought, then route: `next_thought_needed`
false sets `ctx["solution"]` from `_extract_final_solution` (over the
appended list - `thoughts` aliases `ctx["thoughts"]` in the source) and
returns `("end", solution)`; otherwise `("continue", None)`. -/
def cot_post (r : LlmResponse) (thought_number : Nat) (ctx : Ctx) :
    (String × Option String) × Ctx :=
  let t := to_thought r thought_number
  let thoughts2 := ctx.thoughts ++ [t]
  let ctx2 := { ctx with thoughts := thoughts2 }
  match r.next_thought_needed with
  | some false =>
    let sol := extract_final_solution r thoughts2
    (("end", some sol), { ctx2 with solution := some sol })
  | _ => (("continue", none), ctx2)

/-- `ChainOfThoughtNode.__call__` (nodes.py lines 27-121): initialize the
store on first use, bump the thought counter, serialize the history, resolve
any Search Needed queries through the augmentation cache, build the prompt,
consume one completion reply, validate (with the single fix-and-revalidate
recovery), then append and route. Returns the outcome paired with the
remaining completion script. -/
def cot_call (search_fn : String → Except String (List SearchResult))
    (scrape_fn : String → Except String ScrapeRecord) (max_scraped_urls : Nat)
    (script : List (Except String LlmResponse)) (ctx : Ctx) (p : ParamsT) :
    Except NodeErr ((String × Option String) × Ctx) × List (Except String LlmResponse) :=
  let ctx0 :=
    if ctx.problem.isNone then
      { ctx with problem := some (p.problem.getD ""), thoughts := [],
                 current_thought_number := 0, solution := none,
                 search_results := [], scraped_content := [] }
    else ctx
  let problem := ctx0.problem.getD ""
  let thought_number := ctx0.current_thought_number + 1
  let ctx1 := { ctx0 with current_thought_number := thought_number }
  let history0 := thoughts_history_text ctx1.thoughts
  let queries := extract_search_queries ctx1.thoughts
  let searched :=
    if queries.isEmpty then (history0, ctx1)
    else
      let sr := perform_searches search_fn queries ctx1.search_results
      let ctx_a := { ctx1 with search_results := assoc_update_all ctx1.search_results sr }
      let sc := scrape_search_results scrape_fn max_scraped_urls sr ctx_a.scraped_content
      let ctx_b := { ctx_a with scraped_content := assoc_update_all ctx_a.scraped_content sc }
      (history0 ++
        "Recent search results:\n" ++ format_search_results sr ++ "\n\n" ++
        "Scraped content from top results:\n" ++ format_scraped_content sc ++ "\n\n",
       ctx_b)
  let history := searched.1
  let ctx2 := searched.2
  let is_first_thought := ctx2.thoughts.length == 0
  let prompt := construct_prompt problem history is_first_thought
  match take_scripted_reply script prompt with
  | (.error msg, rest) => (.error (.parseFailure msg), rest)
  | (.ok r, rest) =>
    match validate_response r with
    | .ok _ => (.ok (cot_post r thought_number ctx2), rest)
    | .error _ =>
      let r2 := fix_llm_response r
      match validate_response r2 with
      | .ok _ => (.ok (cot_post r2 thought_number ctx2), rest)
      | .error e2 => (.error (.validation e2), rest)

/-! ## Parallel explore (spec section 4.5) -/

/-- Modelled from the spec: `ParallelExploreNode` is imported from `nodes`
by `main.py` and `demo.py` and exercised in `demo.py`, but its definition is
not among the repository's source files. This is the sub-run of spec
section 4.5: one fresh reasoning state machine, as the step function
`agent_step` taking the sub-problem and the forked context, looped until it
returns the action `"end"`, whose payload is the sub-run's final value.
Fuel bounds the loop; `none` means the sub-run did not terminate within the
fuel. -/
def run_sub_agent (agent_step : String → Ctx → (String × Option String) × Ctx) :
    Nat → String → Ctx → Option (Option String)
  | 0, _, _ => none
  | fuel + 1, sub_problem, ctx =>
    let r := agent_step sub_problem ctx
    if r.1.1 == "end" then some r.1.2
    else run_sub_agent agent_step fuel sub_problem r.2

/-- Modelled from the spec: joining on all concurrent sub-runs (spec section
5: fan-out launches independent tasks and joins on all of them, collecting
results in input order). `none` when some sub-run does not terminate within
the fuel. -/
def gather_runs (agent_step : String → Ctx → (String × Option String) × Ctx)
    (fuel : Nat) (ctx : Ctx) : List String → Option (List (Option String))
  | [] => some []
  | sub_problem :: rest =>
    match run_sub_agent agent_step fuel sub_problem ctx with
    | none => none
    | some v =>
      match gather_runs agent_step fuel ctx rest with
      | some vs => some (v :: vs)
      | none => none

/-- Modelled from the spec: `ParallelExploreNode.__call__` per spec section
4.5. An empty sub-problem set is a no-op returning `"continue"`
immediately; otherwise one sub-run per sub-problem, each over its own
shallow copy of the parent context, the final values collected in input
order and appended to the parent's `candidates` list. `none` when some
sub-run does not terminate within the fuel. -/
def parallel_explore_node (agent_step : String → Ctx → (String × Option String) × Ctx)
    (fuel : Nat) (ctx : Ctx) (p : ParamsT) :
    Option ((String × Option String) × Ctx) :=
  match p.sub_problems with
  | [] => some (("continue", none), ctx)
  | probs =>
    (gather_runs agent_step fuel ctx probs).map
      (fun finals => (("continue", none), { ctx with candidates := ctx.candidates ++ finals }))

/-! ## Concrete data for the evaluation theorems -/

/-- The truncated model output of spec testable property 3. -/
def truncated_llm_output : String := "\x7b\"current_thinking\":\"x\",\"planning\":["

/-- What one query resolves to in `_perform_searches`: the cached value, the
collaborator's results, or the empty list on a collaborator exception. -/
def resolve_query (search_fn : String → Except String (List SearchResult))
    (previous_results : List (String × List SearchResult)) (query : String) :
    List SearchResult :=
  match assoc_get previous_results query with
  | some cached => cached
  | none =>
    match search_fn query with
    | .ok rs => rs
    | .error _ => []

/-- A search collaborator stub that finds nothing. -/
def stub_search_none : String → Except String (List SearchResult) := fun _ => .ok []

/-- A scrape collaborator stub whose task always fails. -/
def stub_scrape_fail : String → Except String ScrapeRecord := fun _ => .error "boom"

/-- The stub completion reply of the end-to-end property: one valid thought
with `next_thought_needed = false` and `final_answer = "4"`. -/
def twoplustwo_reply : LlmResponse :=
  { current_thinking := some "2 plus 2 equals 4.", planning := some .nil
    next_thought_needed := some false, final_answer := some "4" }

def twoplustwo_params : ParamsT := { problem := some "What is 2+2?", sub_problems := [] }

/-- A reply that `_fix_llm_response` cannot repair: `current_thinking` is
missing, and the fix pass only touches plan steps. -/
def unfixable_reply : LlmResponse :=
  { current_thinking := none, planning := some .nil
    next_thought_needed := some true, final_answer := none }

/-- A valid continue-reply. -/
def valid_continue_reply : LlmResponse :=
  { current_thinking := some "keep going", planning := some .nil
    next_thought_needed := some true, final_answer := none }

/-- A valid end-reply with `final_answer = "42"`. -/
def ultimate_reply : LlmResponse :=
  { current_thinking := some "computed", planning := some .nil
    next_thought_needed := some false, final_answer := some "42" }

def ultimate_params : ParamsT := { problem := some "meaning of life", sub_problems := [] }

/-- A previous thought whose thinking carries a marker text that occurs
nowhere else. -/
def marker_thought : Thought :=
  { thought_number := 1, current_thinking := "ALPHAMARKER", planning := .nil
    next_thought_needed := true, final_answer := none }

/-- The most recent thought of the two-thought history. -/
def second_thought : Thought :=
  { thought_number := 2, current_thinking := "second thinking", planning := .nil
    next_thought_needed := true, final_answer := none }

def demo_done_step : Step :=
  { description := some "compute the sum", status := some "Done", result := some "4"
    query := none, mark := none, has_sub_steps := false, sub_steps := .nil }

def demo_plan : Plan := Plan.cons_step demo_done_step .nil

/-- A sub-agent step that terminates immediately, answering with its
sub-problem text. -/
def echo_agent : String → Ctx → (String × Option String) × Ctx :=
  fun sub_problem ctx => (("end", some sub_problem), ctx)

/-- A concrete search result for exercising the augmentation cache. -/
def c8_sr : SearchResult :=
  { title := "t", url := "http://x", domain := "x", description := "d",
    favicon := "", thumbnail := "" }

/-- A search collaborator that raises on "b" and finds `c8_sr` elsewhere. -/
def c8_search_w : String → Except String (List SearchResult) :=
  fun q => if q == "b" then .error "boom" else .ok [c8_sr]

/-- A scrape collaborator whose every task ends in an exception. -/
def c8_scrape_w : String → Except String ScrapeRecord :=
  fun _ => .error "down"

/-! ## Theorems: the graph executor (C2) -/

theorem run_flow_aux_sound {ν σ α : Type} (step : ν → σ → (String × α) × σ)
    (edges : List (String × ν)) :
    ∀ (fuel : Nat) (n : ν) (s : σ) (v : α) (s' : σ),
      run_flow_aux step edges fuel n s = some (v, s') → FlowRun step edges n s v s' := by
  intro fuel
  induction fuel with
  | zero => intro n s v s' h; simp [run_flow_aux] at h
  | succ k ih =>
    intro n s v s' h
    rcases hstep : step n s with ⟨⟨a, w⟩, s1⟩
    simp only [run_flow_aux, hstep] at h
    cases hedge : assoc_get edges a with
    | none =>
      rw [hedge] at h
      simp only [Option.some.injEq, Prod.mk.injEq] at h
      obtain ⟨hv, hs⟩ := h
      subst hv; subst hs
      exact FlowRun.last n s a w s1 hstep hedge
    | some next =>
      rw [hedge] at h
      exact FlowRun.hop n s a w s1 next v s' hstep hedge (ih next s1 v s' h)

theorem run_flow_aux_complete {ν σ α : Type} (step : ν → σ → (String × α) × σ)
    (edges : List (String × ν)) {n : ν} {s : σ} {v : α} {s' : σ}
    (h : FlowRun step edges n s v s') :
    ∃ fuel, run_flow_aux step edges fuel n s = some (v, s') := by
  induction h with
  | last n s a v s' hstep hedge =>
    exact ⟨1, by simp [run_flow_aux, hstep, hedge]⟩
  | hop n s a v s1 next w s'' hstep hedge _ ih =>
    obtain ⟨fuel, hf⟩ := ih
    exact ⟨fuel + 1, by simp [run_flow_aux, hstep, hedge, hf]⟩

/-- C2: `Flow.run` starts at the designated start node, repeatedly invokes
the current node and routes by looking the returned action up in the edge
table, and terminates returning the last value exactly when a returned
action has no registered edge (`FlowRun` is that spec-side description; the
fuel only bounds the loop, existentially). In particular a flow with edges
`continue -> A`, `explore -> B` whose start unit returns `("spawn", 7)`
terminates immediately and returns `7`. -/
theorem c2_flow_routing :
    (∀ (ν σ α : Type) (step : ν → σ → (String × α) × σ) (f : FlowG ν) (s : σ) (v : α) (s' : σ),
      (∃ fuel, f.run step fuel s = some (v, s')) ↔ FlowRun step f.edges f.start s v s') ∧
    FlowG.run { start := "S", edges := [("continue", "A"), ("explore", "B")] }
      (fun _ u => (("spawn", 7), u)) 1 () = some (7, ()) := by
  constructor
  · intro ν σ α step f s v s'
    constructor
    · rintro ⟨fuel, h⟩
      exact run_flow_aux_sound step f.edges fuel f.start s v s' h
    · intro h
      exact run_flow_aux_complete step f.edges h
  · rfl

/-! ## Theorems: the retry wrapper (C6) -/

theorem retry_go_first_success {ε α : Type} (inner : Nat → Except ε α) :
    ∀ (j attempt sleeps left : Nat) (a : α),
      (∀ k, k < j → except_ok (inner (attempt + k)) = false) →
      inner (attempt + j) = .ok a → j ≤ left →
      retry_go inner attempt sleeps left = (.ok a, sleeps + j) := by
  intro j
  induction j with
  | zero =>
    intro attempt sleeps left a _ hok _
    rw [Nat.add_zero] at hok
    cases left with
    | zero => simp [retry_go, hok]
    | succ l => simp [retry_go, hok]
  | succ jj ih =>
    intro attempt sleeps left a hfail hok hle
    have h0 := hfail 0 (Nat.succ_pos jj)
    rw [Nat.add_zero] at h0
    cases hi : inner attempt with
    | ok b => rw [hi] at h0; simp [except_ok] at h0
    | error e =>
      cases left with
      | zero => omega
      | succ l =>
        simp only [retry_go, hi]
        have := ih (attempt + 1) (sleeps + 1) l a
          (fun k hk => by
            have := hfail (k + 1) (by omega)
            rwa [show attempt + (k + 1) = attempt + 1 + k by omega] at this)
          (by rwa [show attempt + 1 + jj = attempt + (jj + 1) by omega])
          (by omega)
        rw [this, show sleeps + 1 + jj = sleeps + (jj + 1) by omega]

theorem retry_go_all_fail {ε α : Type} (inner : Nat → Except ε α) :
    ∀ (left attempt sleeps : Nat),
      (∀ k, k ≤ left → except_ok (inner (attempt + k)) = false) →
      retry_go inner attempt sleeps left = (inner (attempt + left), sleeps + left) := by
  intro left
  induction left with
  | zero => intro attempt sleeps _; simp [retry_go]
  | succ l ih =>
    intro attempt sleeps h
    have h0 := h 0 (Nat.zero_le _)
    rw [Nat.add_zero] at h0
    cases hi : inner attempt with
    | ok a => rw [hi] at h0; simp [except_ok] at h0
    | error e =>
      simp only [retry_go, hi]
      have := ih (attempt + 1) (sleeps + 1)
        (fun k hk => by
          have := h (k + 1) (by omega)
          rwa [show attempt + (k + 1) = attempt + 1 + k by omega] at this)
      rw [this, show attempt + 1 + l = attempt + (l + 1) by omega,
        show sleeps + 1 + l = sleeps + (l + 1) by omega]

/-- C6: the retry wrapper re-invokes the inner node on failure up to `tries`
total attempts, sleeping once between consecutive failed attempts: the first
success at attempt `j` (0-based) is returned after exactly `j` sleeps, and
when every attempt fails the final attempt's outcome propagates unmodified
after `tries - 1` sleeps. In particular an inner unit failing twice then
succeeding, with `tries = 3`, yields the success value after exactly 2
sleeps. -/
theorem c6_retry_wrapper :
    (∀ (ε α : Type) (inner : Nat → Except ε α) (tries j : Nat) (a : α),
      1 ≤ tries → j < tries →
      (∀ k, k < j → except_ok (inner k) = false) → inner j = .ok a →
      retry_call inner tries = (.ok a, j)) ∧
    (∀ (ε α : Type) (inner : Nat → Except ε α) (tries : Nat),
      1 ≤ tries → (∀ k, k < tries → except_ok (inner k) = false) →
      retry_call inner tries = (inner (tries - 1), tries - 1)) ∧
    retry_call (fun n => if n < 2 then (.error "boom" : Except String Nat) else .ok 42) 3 =
      (.ok 42, 2) := by
  refine ⟨?_, ?_, by rfl⟩
  · intro ε α inner tries j a h1 hj hfail hok
    have hmax : max tries 1 = tries := Nat.max_eq_left h1
    unfold retry_call
    rw [hmax]
    have := retry_go_first_success inner j 0 0 (tries - 1) a
      (fun k hk => by simpa using hfail k hk)
      (by simpa using hok) (by omega)
    simpa using this
  · intro ε α inner tries h1 hfail
    have hmax : max tries 1 = tries := Nat.max_eq_left h1
    unfold retry_call
    rw [hmax]
    have := retry_go_all_fail inner (tries - 1) 0 0
      (fun k hk => by simpa using hfail k (by omega))
    simpa using this

/-- Witness for C6 at a concrete input: an inner unit failing once then
succeeding, with `tries = 2`, returns the success after exactly one sleep. -/
theorem c6_retry_wrapper_witness :
    retry_call (fun n => if n == 0 then (.error "e" : Except String Nat) else .ok 5) 2 =
      (.ok 5, 1) :=
  c6_retry_wrapper.1 String Nat _ 2 1 5 (by decide) (by decide)
    (by decide) (by rfl)

/-! ## Theorems: the plan validator (C3) -/

theorem validate_checks_ok_eq (s : Step) :
    except_ok (validate_step_checks s) = step_rule_checks s := by
  obtain ⟨d, st, r, q, m, hs, subs⟩ := s
  cases d with
  | none => rfl
  | some dv =>
    cases st with
    | none => rfl
    | some stv =>
      cases hcb : valid_statuses.contains stv with
      | false =>
        have hc : ¬ (stv ∈ valid_statuses) := by simpa using hcb
        simp [validate_step_checks, step_rule_checks, hc, except_ok]
      | true =>
        have hc : stv ∈ valid_statuses := by simpa using hcb
        simp only [valid_statuses, List.mem_cons, List.not_mem_nil, or_false] at hc
        rcases hc with h | h | h | h <;> subst h
        · rfl
        · cases htr : option_truthy r with
          | false => simp [validate_step_checks, step_rule_checks, valid_statuses, htr, except_ok]
          | true => simp [validate_step_checks, step_rule_checks, valid_statuses, htr, except_ok]
        · cases htm : option_truthy m with
          | false => simp [validate_step_checks, step_rule_checks, valid_statuses, htm, except_ok]
          | true => simp [validate_step_checks, step_rule_checks, valid_statuses, htm, except_ok]
        · cases htq : option_truthy q with
          | false => simp [validate_step_checks, step_rule_checks, valid_statuses, htq, except_ok]
          | true => simp [validate_step_checks, step_rule_checks, valid_statuses, htq, except_ok]

theorem validate_plan_steps_ok_eq : ∀ p : Plan,
    except_ok (validate_plan_steps p) = plan_rule_holds p := by
  intro p
  induction p with
  | nil => rfl
  | cons d st r q m hs subs rest ih_subs ih_rest =>
    have hc := validate_checks_ok_eq ⟨d, st, r, q, m, hs, subs⟩
    simp only [validate_plan_steps, plan_rule_holds]
    cases hv : validate_step_checks ⟨d, st, r, q, m, hs, subs⟩ with
    | error e =>
      rw [hv] at hc
      simp only [except_ok] at hc
      simp [← hc, except_ok]
    | ok u =>
      rw [hv] at hc
      simp only [except_ok] at hc
      rw [← hc, Bool.true_and]
      cases hhs : hs with
      | false =>
        simpa [except_ok] using ih_rest
      | true =>
        cases hnil : (subs == Plan.nil) with
        | true =>
          have : subs = Plan.nil := by simpa using hnil
          subst this
          simpa [plan_rule_holds, except_ok] using ih_rest
        | false =>
          simp only [Bool.true_and, Bool.not_false, Bool.and_true, if_true]
          cases hvs : validate_plan_steps subs with
          | error e2 =>
            rw [hvs] at ih_subs
            simp only [except_ok] at ih_subs ⊢
            simp [← ih_subs]
          | ok u2 =>
            rw [hvs] at ih_subs
            simp only [except_ok] at ih_subs
            rw [← ih_subs, Bool.true_and]
            simpa [except_ok] using ih_rest

theorem plan_rule_cons_step (t : Step) (rest : Plan) :
    plan_rule_holds (Plan.cons_step t rest) = (step_rule_holds t && plan_rule_holds rest) := rfl

theorem plan_get_cons_step_zero (t : Step) (rest : Plan) :
    (Plan.cons_step t rest).get 0 = some t := rfl

theorem plan_rule_get : ∀ (p : Plan) (i : Nat) (s : Step),
    plan_rule_holds p = true → p.get i = some s → step_rule_holds s = true := by
  intro p
  induction p with
  | nil => intro i s _ h; simp [Plan.get] at h
  | cons d st r q m hs subs rest ih_subs ih_rest =>
    intro i s hrule hget
    cases i with
    | zero =>
      simp only [Plan.get, Option.some.injEq] at hget
      subst hget
      have : plan_rule_holds (Plan.cons d st r q m hs subs rest) =
          (step_rule_holds ⟨d, st, r, q, m, hs, subs⟩ && plan_rule_holds rest) := rfl
      rw [this] at hrule
      exact (Bool.and_eq_true_iff.mp hrule).1
    | succ n =>
      simp only [Plan.get] at hget
      have : plan_rule_holds (Plan.cons d st r q m hs subs rest) =
          (step_rule_holds ⟨d, st, r, q, m, hs, subs⟩ && plan_rule_holds rest) := rfl
      rw [this] at hrule
      exact ih_rest n s (Bool.and_eq_true_iff.mp hrule).2 hget

theorem plan_rule_modify_false : ∀ (p : Plan) (i : Nat) (f : Step → Step) (s : Step),
    p.get i = some s → step_rule_holds (f s) = false →
    plan_rule_holds (p.modify i f) = false := by
  intro p
  induction p with
  | nil => intro i f s h _; simp [Plan.get] at h
  | cons d st r q m hs subs rest ih_subs ih_rest =>
    intro i f s hget hf
    cases i with
    | zero =>
      simp only [Plan.get, Option.some.injEq] at hget
      subst hget
      show plan_rule_holds (Plan.cons_step (f ⟨d, st, r, q, m, hs, subs⟩) rest) = false
      rw [plan_rule_cons_step, hf, Bool.false_and]
    | succ n =>
      have : plan_rule_holds ((Plan.cons d st r q m hs subs rest).modify (n + 1) f) =
          (step_rule_holds ⟨d, st, r, q, m, hs, subs⟩ &&
            plan_rule_holds (rest.modify n f)) := rfl
      rw [this, ih_rest n f s (by simpa [Plan.get] using hget) hf, Bool.and_false]

theorem drop_result_fails (s : Step) (h : s.status = some "Done") :
    step_rule_holds s.drop_result = false := by
  simp [step_rule_holds, step_rule_checks, Step.drop_result, h, option_truthy, valid_statuses]

theorem with_sub_steps_fails (s : Step) (p' : Plan) (h : plan_rule_holds p' = false) :
    step_rule_holds (s.with_sub_steps p') = false := by
  simp [step_rule_holds, step_rule_checks, Step.with_sub_steps, h]

theorem step_rule_sub_plan (s : Step) (h : step_rule_holds s = true) :
    plan_rule_holds s.sub_plan = true := by
  unfold step_rule_holds at h
  unfold Step.sub_plan
  cases hhs : s.has_sub_steps with
  | false => rfl
  | true =>
    rw [hhs] at h
    simpa using (Bool.and_eq_true_iff.mp h).2

theorem plan_rule_drop_at : ∀ (path : List Nat) (p : Plan) (s : Step),
    plan_rule_holds p = true → plan_get_at p path = some s → s.status = some "Done" →
    plan_rule_holds (plan_drop_result_at p path) = false := by
  intro path
  match path with
  | [] => intro p s _ h _; simp [plan_get_at] at h
  | [i] =>
    intro p s hrule hget hst
    have hgi : p.get i = some s := by
      simp only [plan_get_at] at hget
      cases hg : p.get i with
      | none => rw [hg] at hget; simp at hget
      | some t => rw [hg] at hget; simpa using hget
    show plan_rule_holds (p.modify i Step.drop_result) = false
    exact plan_rule_modify_false p i Step.drop_result s hgi (drop_result_fails s hst)
  | i :: j :: rest =>
    intro p s hrule hget hst
    simp only [plan_get_at] at hget
    cases hg : p.get i with
    | none => rw [hg] at hget; simp at hget
    | some t =>
      rw [hg] at hget
      simp only at hget
      have hts : step_rule_holds t = true := plan_rule_get p i t hrule hg
      have hsub : plan_rule_holds t.sub_plan = true := step_rule_sub_plan t hts
      have hrec : plan_rule_holds (plan_drop_result_at t.sub_plan (j :: rest)) = false :=
        plan_rule_drop_at (j :: rest) t.sub_plan s hsub hget hst
      show plan_rule_holds
        (p.modify i (fun u => u.with_sub_steps (plan_drop_result_at u.sub_plan (j :: rest)))) =
        false
      exact plan_rule_modify_false p i _ t hg (with_sub_steps_fails t _ hrec)

/-- C3: the plan validator succeeds exactly when every step, recursively
through `sub_steps`, satisfies its status/companion-field rule
(`plan_rule_holds`, written from the spec's wording); and removing the
`result` of any Done step of a valid plan always flips validation to
failure. -/
theorem c3_validator_iff_done_removal :
    (∀ p : Plan, except_ok (validate_plan_steps p) = true ↔ plan_rule_holds p = true) ∧
    (∀ (p : Plan) (path : List Nat) (s : Step),
      except_ok (validate_plan_steps p) = true → plan_get_at p path = some s →
      s.status = some "Done" →
      except_ok (validate_plan_steps (plan_drop_result_at p path)) = false) := by
  constructor
  · intro p
    rw [validate_plan_steps_ok_eq]
  · intro p path s hok hget hst
    rw [validate_plan_steps_ok_eq] at hok ⊢
    exact plan_rule_drop_at path p s hok hget hst

/-- Witness for C3 at a concrete plan: one Done step with a result validates,
and removing that result makes validation fail. -/
theorem c3_validator_witness :
    except_ok (validate_plan_steps demo_plan) = true ∧
    except_ok (validate_plan_steps (plan_drop_result_at demo_plan [0])) = false :=
  ⟨(c3_validator_iff_done_removal.1 demo_plan).mpr (by decide),
    c3_validator_iff_done_removal.2 demo_plan [0] demo_done_step (by decide) (by decide)
      (by decide)⟩

/-! ## Theorems: the parsing pipeline (C4) -/

set_option maxRecDepth 40000 in
/-- C4 counterexample: appending one closing bracket and one closing brace
would make the truncated input parse, but the pipeline performs no such
brace-balancing repair - on the truncated input every strategy fails and
the pipeline raises instead of producing a parseable repaired text. -/
theorem c4_no_brace_balancing_counterexample :
    (json_loads (truncated_llm_output ++ "]\x7d")).isSome = true ∧
    except_ok (parse_llm_response_text truncated_llm_output) = false := by
  exact ⟨by rfl, by rfl⟩

set_option maxRecDepth 40000 in
/-- C4 (amended): `_parse_llm_response` contains no text-repair pass; on the
truncated input all six strategies fail and the `ValueError` carrying the
(here: whole, under-500-character) stripped text as its sample is
raised. -/
theorem c4_truncated_input_raises :
    parse_llm_response_text truncated_llm_output =
      .error ("Failed to parse LLM response. Attempted multiple parsing strategies.Response sample: "
        ++ truncated_llm_output) := by
  rfl

/-! ## Theorems: the thoughts history (C7) -/

set_option maxRecDepth 40000 in
/-- C7 counterexample: with two previous thoughts, the first thought (whose
thinking text `ALPHAMARKER` occurs nowhere else) does not appear in the
serialized history, although it is among the last `min(2, 10)` thoughts. -/
theorem c7_history_counterexample :
    ¬ (marker_thought.current_thinking.data <:+:
        (thoughts_history_text [marker_thought, second_thought]).data) := by
  decide

/-- C7 (amended): the history text serializes only the most recent thought:
it is determined by `getLast?` alone, and the last thought's
`current_thinking` always appears in it. -/
theorem c7_history_last_thought_only :
    (∀ ts ts' : List Thought, ts.getLast? = ts'.getLast? →
      thoughts_history_text ts = thoughts_history_text ts') ∧
    (∀ (ts : List Thought) (t : Thought), ts.getLast? = some t →
      t.current_thinking.data <:+: (thoughts_history_text ts).data) := by
  constructor
  · intro ts ts' h
    unfold thoughts_history_text
    rw [h]
  · intro ts t h
    unfold thoughts_history_text
    rw [h]
    refine ⟨("Previous thought #" ++ toString t.thought_number ++ ":\n").data,
      ("\n\n" ++ "Current plan status:\n" ++ format_plan_for_prompt t.planning ++ "\n\n").data,
      ?_⟩
    simp [← String.data_append, String.append_assoc]

/-- Witness for C7 (amended) at a concrete history: the most recent
thought's thinking appears in the serialized history. -/
theorem c7_history_witness :
    second_thought.current_thinking.data <:+:
      (thoughts_history_text [marker_thought, second_thought]).data :=
  c7_history_last_thought_only.2 [marker_thought, second_thought] second_thought (by rfl)

/-! ## Theorems: the augmentation cache (C8) -/

theorem assoc_get_cons {α : Type} (k0 : String) (v0 : α) (rest : List (String × α))
    (key : String) :
    assoc_get ((k0, v0) :: rest) key = if k0 == key then some v0 else assoc_get rest key := rfl

theorem assoc_get_map_self {α : Type} (g : String → α) :
    ∀ (l : List String) (k : String),
      assoc_get (l.map (fun u => (u, g u))) k = if k ∈ l then some (g k) else none := by
  intro l
  induction l with
  | nil => intro k; simp [assoc_get]
  | cons u us ih =>
    intro k
    by_cases h : u = k
    · subst h
      simp [assoc_get_cons]
    · rw [List.map_cons, assoc_get_cons, if_neg (by simpa using h), ih k]
      by_cases hk : k ∈ us
      · rw [if_pos hk, if_pos (List.mem_cons_of_mem u hk)]
      · rw [if_neg hk, if_neg (by simp [hk, Ne.symm h])]

theorem mem_dedup_go : ∀ (l seen : List String) (x : String),
    x ∈ dedup_go l seen ↔ (x ∈ l ∧ ¬ x ∈ seen) := by
  intro l
  induction l with
  | nil => intro seen x; simp [dedup_go]
  | cons y ys ih =>
    intro seen x
    simp only [dedup_go]
    by_cases hymem : y ∈ seen
    · rw [show (seen.contains y) = true by simpa using hymem, if_pos rfl, ih seen x]
      simp only [List.mem_cons]
      constructor
      · rintro ⟨hxy, hxs⟩; exact ⟨Or.inr hxy, hxs⟩
      · rintro ⟨hor, hxs⟩
        rcases hor with h | h
        · subst h; exact absurd hymem hxs
        · exact ⟨h, hxs⟩
    · rw [show (seen.contains y) = false by simpa using hymem, if_neg (by simp)]
      simp only [List.mem_cons, ih (y :: seen) x]
      by_cases hxy : x = y
      · subst hxy; simp [hymem]
      · simp [hxy]

theorem mem_dedup_keep_first (l : List String) (x : String) :
    x ∈ dedup_keep_first l ↔ x ∈ l := by
  unfold dedup_keep_first
  rw [mem_dedup_go]
  simp

theorem assoc_has_cons {α : Type} (k0 : String) (v0 : α) (rest : List (String × α))
    (k : String) :
    assoc_has ((k0, v0) :: rest) k =
      (if k0 == k then true else assoc_has rest k) := by
  unfold assoc_has
  rw [assoc_get_cons]
  by_cases h : k0 == k
  · rw [if_pos h, if_pos h]; rfl
  · rw [if_neg h, if_neg h]

theorem assoc_get_of_map_set {α : Type} (k : String) (v : α) :
    ∀ (m : List (String × α)) (key : String),
      assoc_get (m.map (fun kv => if kv.1 == k then (k, v) else kv)) key =
        (if key = k then (if assoc_has m k then some v else none) else assoc_get m key) := by
  intro m
  induction m with
  | nil => intro key; simp [assoc_get, assoc_has]
  | cons kv rest ih =>
    obtain ⟨k0, v0⟩ := kv
    intro key
    rw [List.map_cons]
    by_cases h0 : k0 = k
    · subst h0
      rw [if_pos (show (((k0, v0).1 == k0) = true) from by simp), assoc_get_cons]
      by_cases hkey : key = k0
      · subst hkey
        simp [assoc_has_cons]
      · rw [ih key]
        simp [assoc_get_cons, hkey, Ne.symm hkey]
    · rw [if_neg (show ¬ (((k0, v0).1 == k) = true) from by simpa using h0), assoc_get_cons]
      by_cases hkey : key = k
      · subst hkey
        rw [ih key]
        simp [assoc_has_cons, h0, Ne.symm h0]
      · rw [ih key]
        simp [assoc_get_cons, hkey]

theorem assoc_get_append_new {α : Type} (k : String) (v : α) :
    ∀ (m : List (String × α)) (key : String), assoc_get m k = none →
      assoc_get (m ++ [(k, v)]) key = if key = k then some v else assoc_get m key := by
  intro m
  induction m with
  | nil =>
    intro key _
    rw [List.nil_append, assoc_get_cons]
    by_cases h : key = k
    · simp [h]
    · rw [if_neg (by simpa using Ne.symm h), if_neg h]
  | cons kv rest ih =>
    obtain ⟨k0, v0⟩ := kv
    intro key hnone
    rw [assoc_get_cons] at hnone
    have hk0 : ¬ (k0 == k) = true := by
      intro hc
      rw [if_pos hc] at hnone
      exact Option.noConfusion hnone
    rw [if_neg hk0] at hnone
    rw [List.cons_append, assoc_get_cons, assoc_get_cons]
    by_cases hkey : (k0 == key) = true
    · rw [if_pos hkey, if_pos hkey]
      rw [if_neg (show ¬ key = k from fun hc => hk0 (hc ▸ hkey))]
    · rw [if_neg hkey, if_neg hkey, ih key hnone]

theorem assoc_get_set_eq {α : Type} (m : List (String × α)) (k : String) (v : α)
    (key : String) :
    assoc_get (assoc_set m k v) key = if key = k then some v else assoc_get m key := by
  unfold assoc_set
  by_cases hh : assoc_has m k
  · rw [if_pos hh, assoc_get_of_map_set, hh]
    by_cases hkey : key = k
    · rw [if_pos hkey, if_pos hkey]; rfl
    · rw [if_neg hkey, if_neg hkey]
  · rw [if_neg hh]
    have : assoc_get m k = none := by
      unfold assoc_has at hh
      cases h : assoc_get m k with
      | none => rfl
      | some x => rw [h] at hh; simp at hh
    exact assoc_get_append_new k v m key this

theorem perform_searches_get
    (search_fn : String → Except String (List SearchResult))
    (previous_results : List (String × List SearchResult)) :
    ∀ (queries : List String) (acc : List (String × List SearchResult)) (key : String),
      assoc_get
        (queries.foldl
          (fun results query =>
            match assoc_get previous_results query with
            | some cached => assoc_set results query cached
            | none =>
              match search_fn query with
              | .ok rs => assoc_set results query rs
              | .error _ => assoc_set results query []) acc) key =
        if key ∈ queries then some (resolve_query search_fn previous_results key)
        else assoc_get acc key := by
  intro queries
  induction queries with
  | nil => intro acc key; simp
  | cons q qs ih =>
    intro acc key
    rw [List.foldl_cons, ih]
    have hstep : (match assoc_get previous_results q with
        | some cached => assoc_set acc q cached
        | none =>
          match search_fn q with
          | .ok rs => assoc_set acc q rs
          | .error _ => assoc_set acc q []) =
        assoc_set acc q (resolve_query search_fn previous_results q) := by
      unfold resolve_query
      cases assoc_get previous_results q with
      | some c => rfl
      | none =>
        cases search_fn q with
        | ok rs => rfl
        | error e => rfl
    rw [hstep]
    by_cases hqs : key ∈ qs
    · rw [if_pos hqs, if_pos (List.mem_cons_of_mem q hqs)]
    · rw [if_neg hqs, assoc_get_set_eq]
      by_cases hq : key = q
      · subst hq
        rw [if_pos rfl, if_pos (List.mem_cons_self key qs)]
      · rw [if_neg hq, if_neg (by simp [hq, hqs])]

/-- C8: the augmentation cache. (a) A query whose results are already in the
prior-results map resolves to the cached list, identically for any two search
collaborators (it is not re-searched); (b) a collaborator exception on an
uncached query yields an empty result list for that query; (c) every query in
the batch still gets an entry (the batch is never aborted); (d) a per-URL
scraping exception is captured as a record with `success = false` and an
explanatory error message, never raised. -/
theorem c8_augmentation_cache
    (search_fn search_fn2 : String → Except String (List SearchResult))
    (scrape_fn : String → Except String ScrapeRecord)
    (queries : List String) (prev : List (String × List SearchResult))
    (key : String) (cached : List SearchResult) (e : String)
    (urls : List String) (url : String) (err : String) :
    (key ∈ queries → assoc_get prev key = some cached →
       assoc_get (perform_searches search_fn queries prev) key = some cached ∧
       assoc_get (perform_searches search_fn queries prev) key =
         assoc_get (perform_searches search_fn2 queries prev) key) ∧
    (key ∈ queries → assoc_get prev key = none → search_fn key = .error e →
       assoc_get (perform_searches search_fn queries prev) key = some []) ∧
    (key ∈ queries →
       (assoc_get (perform_searches search_fn queries prev) key).isSome = true) ∧
    (url ∈ urls → scrape_fn url = .error err →
       assoc_get (scrape_multiple_urls scrape_fn urls) url =
         some { url := url, success := false,
                error := some ("Exception during scraping: " ++ err),
                title := "", content := "", links := [] }) := by
  refine ⟨?_, ?_, ?_, ?_⟩
  · intro hmem hcache
    have h1 : assoc_get (perform_searches search_fn queries prev) key =
        some (resolve_query search_fn prev key) := by
      unfold perform_searches
      rw [perform_searches_get, if_pos hmem]
    have h2 : assoc_get (perform_searches search_fn2 queries prev) key =
        some (resolve_query search_fn2 prev key) := by
      unfold perform_searches
      rw [perform_searches_get, if_pos hmem]
    have hres : ∀ f : String → Except String (List SearchResult),
        resolve_query f prev key = cached := by
      intro f
      unfold resolve_query
      rw [hcache]
    rw [h1, h2, hres search_fn, hres search_fn2]
    exact ⟨rfl, rfl⟩
  · intro hmem hnone herr
    unfold perform_searches
    rw [perform_searches_get, if_pos hmem]
    unfold resolve_query
    rw [hnone, herr]
  · intro hmem
    unfold perform_searches
    rw [perform_searches_get, if_pos hmem]
    rfl
  · intro hmem herr
    unfold scrape_multiple_urls
    rw [assoc_get_map_self, if_pos ((mem_dedup_keep_first urls url).mpr hmem)]
    unfold scrape_outcome
    rw [herr]

/-- C8 witness: on the batch ["a", "b"] with "a" cached and the collaborator
raising on "b", "a" keeps its cached results and "b" maps to the empty list;
a scraping exception on "u" becomes a tagged failure record. -/
theorem c8_augmentation_cache_witness :
    assoc_get (perform_searches c8_search_w ["a", "b"] [("a", [c8_sr])]) "a" =
      some [c8_sr] ∧
    assoc_get (perform_searches c8_search_w ["a", "b"] [("a", [c8_sr])]) "b" =
      some [] ∧
    assoc_get (scrape_multiple_urls c8_scrape_w ["u"]) "u" =
      some { url := "u", success := false,
             error := some "Exception during scraping: down",
             title := "", content := "", links := [] } :=
  ⟨((c8_augmentation_cache c8_search_w c8_search_w c8_scrape_w ["a", "b"]
      [("a", [c8_sr])] "a" [c8_sr] "x" ["u"] "u" "down").1
      (by simp) (by rfl)).1,
   (c8_augmentation_cache c8_search_w c8_search_w c8_scrape_w ["a", "b"]
      [("a", [c8_sr])] "b" [] "boom" ["u"] "u" "down").2.1
      (by simp) (by rfl) (by rfl),
   (c8_augmentation_cache c8_search_w c8_search_w c8_scrape_w ["a", "b"]
      [("a", [c8_sr])] "b" [] "boom" ["u"] "u" "down").2.2.2
      (by simp) (by rfl)⟩

/-! ## Theorems: parse/validation failure handling (C5) -/

/-- C5 counterexample: with a completion script whose first reply fails
validation unrepairably while two further valid replies remain available,
`__call__` surfaces the fatal validation error after consuming only the one
reply - the two remaining replies are untouched, so no second or third
attempt is ever made for that model call. -/
theorem c5_retry_counterexample :
    cot_call stub_search_none stub_scrape_fail 5
      [.ok unfixable_reply, .ok valid_continue_reply, .ok valid_continue_reply]
      empty_ctx twoplustwo_params =
    (.error (.validation (.missingField "current_thinking")),
     [.ok valid_continue_reply, .ok valid_continue_reply]) := by
  rfl

/-- C5 (amended): a model call is never retried. A transport/parse failure
propagates immediately as `ParseFailure` with the rest of the script
untouched; a validation failure gets exactly one `_fix_llm_response` pass
and one revalidation, and if that also fails the error propagates as a
fatal `ValidationError`, again with the rest of the script untouched. -/
theorem c5_single_fix_no_retry
    (search_fn : String → Except String (List SearchResult))
    (scrape_fn : String → Except String ScrapeRecord) (m : Nat) :
    (∀ (msg : String) (rest : List (Except String LlmResponse)) (ctx : Ctx) (p : ParamsT),
       cot_call search_fn scrape_fn m (.error msg :: rest) ctx p =
         (.error (.parseFailure msg), rest)) ∧
    (∀ (r : LlmResponse) (rest : List (Except String LlmResponse)) (ctx : Ctx)
       (p : ParamsT) (e e2 : ValErr),
       validate_response r = .error e →
       validate_response (fix_llm_response r) = .error e2 →
       cot_call search_fn scrape_fn m (.ok r :: rest) ctx p =
         (.error (.validation e2), rest)) := by
  constructor
  · intro msg rest ctx p
    rfl
  · intro r rest ctx p e e2 hval hfix
    unfold cot_call
    simp only [take_scripted_reply]
    rw [hval, hfix]

/-- C5 witness: a transport failure surfaces as `ParseFailure` at once, and
the unrepairable reply surfaces as a fatal `ValidationError` with the
remaining script untouched. -/
theorem c5_single_fix_no_retry_witness :
    cot_call stub_search_none stub_scrape_fail 5 [.error "transport error"]
      empty_ctx twoplustwo_params =
      (.error (.parseFailure "transport error"), []) ∧
    cot_call stub_search_none stub_scrape_fail 5
      [.ok unfixable_reply, .ok valid_continue_reply] empty_ctx twoplustwo_params =
      (.error (.validation (.missingField "current_thinking")), [.ok valid_continue_reply]) :=
  ⟨(c5_single_fix_no_retry stub_search_none stub_scrape_fail 5).1
     "transport error" [] empty_ctx twoplustwo_params,
   (c5_single_fix_no_retry stub_search_none stub_scrape_fail 5).2
     unfixable_reply [.ok valid_continue_reply] empty_ctx twoplustwo_params
     (.missingField "current_thinking") (.missingField "current_thinking")
     (by rfl) (by rfl)⟩

/-! ## Theorems: end/continue routing (C1) -/

/-- C1: when the validated response has `next_thought_needed = false`, the
node stores a solution in the context and returns action "end" carrying that
solution; when it is true, the node returns action "continue" with no value.
In particular, for "What is 2+2?" with a stub completion service whose
first reply is a valid thought with `next_thought_needed = false` and
`final_answer = "4"`, the first invocation returns ("end", "4") and leaves
`ctx["solution"] = "4"`. -/
theorem c1_end_routing (r : LlmResponse) (n : Nat) (ctx : Ctx) :
    (r.next_thought_needed = some false →
       ∃ sol ctx2, cot_post r n ctx = (("end", some sol), ctx2) ∧
         ctx2.solution = some sol) ∧
    (r.next_thought_needed = some true →
       (cot_post r n ctx).1 = ("continue", none)) ∧
    ((cot_call stub_search_none stub_scrape_fail 5 [.ok twoplustwo_reply]
        empty_ctx twoplustwo_params).1.map (fun out => (out.1, out.2.solution)) =
      .ok (("end", some "4"), some "4")) ∧
    (cot_call stub_search_none stub_scrape_fail 5 [.ok twoplustwo_reply]
        empty_ctx twoplustwo_params).2 = [] := by
  refine ⟨?_, ?_, by rfl, by rfl⟩
  · intro h
    unfold cot_post
    rw [h]
    exact ⟨_, _, rfl, rfl⟩
  · intro h
    unfold cot_post
    rw [h]

/-- C1 witness: the end and continue routes at concrete inputs. -/
theorem c1_end_routing_witness :
    (∃ sol ctx2, cot_post twoplustwo_reply 1 empty_ctx = (("end", some sol), ctx2) ∧
       ctx2.solution = some sol) ∧
    (cot_post valid_continue_reply 1 empty_ctx).1 = ("continue", none) :=
  ⟨(c1_end_routing twoplustwo_reply 1 empty_ctx).1 (by rfl),
   (c1_end_routing valid_continue_reply 1 empty_ctx).2.1 (by rfl)⟩

/-! ## Theorems: the end-path solution is the final answer (C10) -/

theorem fix_llm_response_preserves (r : LlmResponse) :
    (fix_llm_response r).final_answer = r.final_answer ∧
    (fix_llm_response r).next_thought_needed = r.next_thought_needed := by
  unfold fix_llm_response
  cases hp : r.planning with
  | some p => exact ⟨rfl, rfl⟩
  | none => exact ⟨rfl, rfl⟩

theorem validate_final_answer (r : LlmResponse) (u : Unit)
    (hok : validate_response r = .ok u)
    (hnt : r.next_thought_needed = some false) :
    ∃ ans, r.final_answer = some ans := by
  cases hfa : r.final_answer with
  | some a => exact ⟨a, rfl⟩
  | none =>
    exfalso
    unfold validate_response at hok
    rw [hnt, hfa] at hok
    split at hok
    · exact Except.noConfusion hok
    · split at hok
      · exact Except.noConfusion hok
      · split at hok
        · exact Except.noConfusion hok
        · rw [if_pos (by decide)] at hok
          exact Except.noConfusion hok

theorem cot_post_end (r : LlmResponse) (n : Nat) (ctx : Ctx)
    (h : (cot_post r n ctx).1.1 = "end") :
    r.next_thought_needed = some false := by
  cases hnt : r.next_thought_needed with
  | none => simp [cot_post, hnt] at h
  | some b =>
    cases b with
    | false => rfl
    | true => simp [cot_post, hnt] at h

theorem cot_post_end_shape (r : LlmResponse) (n : Nat) (ctx : Ctx) (ans : String)
    (hnt : r.next_thought_needed = some false) (hfa : r.final_answer = some ans) :
    (cot_post r n ctx).1 = ("end", some ans) ∧
    (cot_post r n ctx).2.solution = some ans := by
  constructor
  · simp [cot_post, hnt, extract_final_solution, hfa]
  · simp [cot_post, hnt, extract_final_solution, hfa]

/-- C10: whenever `__call__` returns action "end", the returned payload and
`ctx["solution"]` are exactly the reply's `final_answer`: validation rejects
any response with `next_thought_needed = false` lacking `final_answer`, and
the fix pass never touches `final_answer`, so the multi-part synthesis
fallback of `_extract_final_solution` is unreachable on the "end" path. -/
theorem c10_end_solution_is_final_answer
    (search_fn : String → Except String (List SearchResult))
    (scrape_fn : String → Except String ScrapeRecord) (m : Nat)
    (r : LlmResponse) (rest rest2 : List (Except String LlmResponse))
    (ctx ctx2 : Ctx) (p : ParamsT) (a : String) (v : Option String)
    (h : cot_call search_fn scrape_fn m (.ok r :: rest) ctx p =
      (.ok ((a, v), ctx2), rest2))
    (ha : a = "end") :
    ∃ ans, r.final_answer = some ans ∧ v = some ans ∧ ctx2.solution = some ans := by
  subst ha
  unfold cot_call at h
  simp only [take_scripted_reply] at h
  cases hv : validate_response r with
  | ok u =>
    rw [hv] at h
    simp only [Prod.mk.injEq, Except.ok.injEq] at h
    obtain ⟨hpost, -⟩ := h
    have hnt := cot_post_end r _ _ (by rw [hpost])
    obtain ⟨ans, hans⟩ := validate_final_answer r u hv hnt
    obtain ⟨hfst, hsol⟩ := cot_post_end_shape r _ _ ans hnt hans
    rw [hpost] at hfst hsol
    simp only [Prod.mk.injEq] at hfst
    exact ⟨ans, hans, hfst.2, hsol⟩
  | error e1 =>
    rw [hv] at h
    cases hv2 : validate_response (fix_llm_response r) with
    | ok u =>
      rw [hv2] at h
      simp only [Prod.mk.injEq, Except.ok.injEq] at h
      obtain ⟨hpost, -⟩ := h
      have hnt2 := cot_post_end (fix_llm_response r) _ _ (by rw [hpost])
      obtain ⟨ans, hans2⟩ := validate_final_answer (fix_llm_response r) u hv2 hnt2
      obtain ⟨hfst, hsol⟩ := cot_post_end_shape (fix_llm_response r) _ _ ans hnt2 hans2
      rw [hpost] at hfst hsol
      simp only [Prod.mk.injEq] at hfst
      have hfa : r.final_answer = some ans := by
        rw [← (fix_llm_response_preserves r).1]
        exact hans2
      exact ⟨ans, hfa, hfst.2, hsol⟩
    | error e2 =>
      rw [hv2] at h
      simp at h

/-- C10 witness: the end path at a concrete valid end-reply whose
`final_answer` is "42". -/
theorem c10_end_solution_is_final_answer_witness :
    ∃ ans, ultimate_reply.final_answer = some ans ∧
      (some "42" : Option String) = some ans ∧
      Ctx.solution
        { problem := some "meaning of life",
          thoughts := [{ thought_number := 1, current_thinking := "computed",
                         planning := .nil, next_thought_needed := false,
                         final_answer := some "42" }],
          current_thought_number := 1, solution := some "42",
          search_results := [], scraped_content := [], candidates := [] } = some ans :=
  c10_end_solution_is_final_answer stub_search_none stub_scrape_fail 5
    ultimate_reply [] [] empty_ctx
    { problem := some "meaning of life",
      thoughts := [{ thought_number := 1, current_thinking := "computed",
                     planning := .nil, next_thought_needed := false,
                     final_answer := some "42" }],
      current_thought_number := 1, solution := some "42",
      search_results := [], scraped_content := [], candidates := [] }
    ultimate_params "end" (some "42") (by rfl) rfl

/-! ## Theorems: parallel explore (C9) -/

theorem gather_runs_spec
    (agent_step : String → Ctx → (String × Option String) × Ctx)
    (fuel : Nat) (ctx : Ctx) :
    ∀ (probs : List String) (finals : List (Option String)),
      gather_runs agent_step fuel ctx probs = some finals →
      finals.map some = probs.map (fun sp => run_sub_agent agent_step fuel sp ctx) := by
  intro probs
  induction probs with
  | nil =>
    intro finals h
    simp only [gather_runs, Option.some.injEq] at h
    subst h
    simp
  | cons q qs ih =>
    intro finals h
    unfold gather_runs at h
    cases hr : run_sub_agent agent_step fuel q ctx with
    | none => rw [hr] at h; simp at h
    | some v =>
      rw [hr] at h
      cases hg : gather_runs agent_step fuel ctx qs with
      | none => rw [hg] at h; simp at h
      | some vs =>
        rw [hg] at h
        simp only [Option.some.injEq] at h
        subst h
        simp [hr, ih vs hg]

/-- Modelled from the spec: C9. With no sub-problems, Parallel Explore is a
no-op returning "continue" and the context unchanged. With sub-problems,
when every sub-run terminates, it returns "continue" with the sub-runs'
final values - one per sub-problem, in input order - appended to the
parent's `candidates` list. -/
theorem c9_parallel_explore
    (agent_step : String → Ctx → (String × Option String) × Ctx)
    (fuel : Nat) (ctx : Ctx) (pp : Option String) (probs : List String)
    (finals : List (Option String)) :
    (parallel_explore_node agent_step fuel ctx
        { problem := pp, sub_problems := [] } =
      some (("continue", none), ctx)) ∧
    (gather_runs agent_step fuel ctx probs = some finals → probs ≠ [] →
      parallel_explore_node agent_step fuel ctx
          { problem := pp, sub_problems := probs } =
        some (("continue", none),
          { ctx with candidates := ctx.candidates ++ finals }) ∧
      finals.map some = probs.map (fun sp => run_sub_agent agent_step fuel sp ctx) ∧
      finals.length = probs.length) := by
  constructor
  · rfl
  · intro hg hne
    have hmap := gather_runs_spec agent_step fuel ctx probs finals hg
    refine ⟨?_, hmap, ?_⟩
    · cases probs with
      | nil => exact absurd rfl hne
      | cons q qs =>
        show (gather_runs agent_step fuel ctx (q :: qs)).map _ = _
        rw [hg]
        rfl
    · have := congrArg List.length hmap
      simpa using this

/-- C9 witness: three echo sub-agents answer their own sub-problem texts,
collected in input order onto `candidates`; the empty set is a no-op. -/
theorem c9_parallel_explore_witness :
    parallel_explore_node echo_agent 1 empty_ctx
        { problem := none, sub_problems := ["A", "B", "C"] } =
      some (("continue", none),
        { empty_ctx with
            candidates := empty_ctx.candidates ++ [some "A", some "B", some "C"] }) ∧
    parallel_explore_node echo_agent 1 empty_ctx
        { problem := none, sub_problems := [] } =
      some (("continue", none), empty_ctx) :=
  ⟨((c9_parallel_explore echo_agent 1 empty_ctx none ["A", "B", "C"]
      [some "A", some "B", some "C"]).2 (by rfl) (by simp)).1,
   (c9_parallel_explore echo_agent 1 empty_ctx none [] []).1⟩
